import Mathlib

/-!
Shallow embedding of the VLCNetPlanner core (coverage analyzer and placement
optimizer) over the real numbers, together with theorems settling the frozen
claims about it.  Python floats are modelled as exact reals; numpy reductions
over empty selections are modelled by an explicit error value, matching the
ValueError numpy raises there.
-/

open Real

noncomputable section

namespace VLC

/-- Floor plan: the analyzer and optimizer read only width and height. -/
structure FloorPlan where
  width : ℝ
  height : ℝ

/-- Union of the per-type property dictionaries of vlc_components.py.
Keys the Python dict does not carry for a given component type default to 0;
the code never reads them for that type. -/
structure CompProps where
  power : ℝ := 0
  beam_angle : ℝ := 0
  wavelength : ℝ := 0
  coverage_radius : ℝ := 0
  sensitivity : ℝ := 0
  fov : ℝ := 0
  active_area : ℝ := 0

/-- A VLC component dict: type tag, id, position, properties. -/
structure Component where
  type : String
  id : ℕ
  position : ℝ × ℝ
  props : CompProps

def defaultComponent : Component :=
  { type := "", id := 0, position := (0, 0), props := {} }

/-- Default properties assigned by VLCComponentManager._get_default_properties. -/
def _get_default_properties (component_type : String) : CompProps :=
  if component_type = "Light Source" then
    { power := 20, beam_angle := 120, wavelength := 550, coverage_radius := 3 }
  else
    { sensitivity := -30, fov := 60, active_area := 1e-4 }

/-- VLCComponentManager.add_component: appends a component with default
position and properties (no validation of any property value) and selects it.
The session state (component list) is passed explicitly. -/
def add_component (component_type : String) (vlc_components : List Component) :
    List Component × ℕ :=
  let new : Component :=
    { type := component_type, id := vlc_components.length, position := (0, 0),
      props := _get_default_properties component_type }
  (vlc_components ++ [new], new.id)

/-- The beam-angle edit control of VLCComponentManager.edit_component accepts
exactly the values the st.number_input with min_value=30.0, max_value=180.0
accepts. -/
def beam_angle_input_valid (v : ℝ) : Prop := 30 ≤ v ∧ v ≤ 180

/-! ### Signal model (coverage_analysis.py) -/

/-- np.linalg.norm of a 2-vector. -/
def npNorm (v : ℝ × ℝ) : ℝ := Real.sqrt (v.1 ^ 2 + v.2 ^ 2)

/-- Euclidean distance between two points. -/
def dist2 (p q : ℝ × ℝ) : ℝ := npNorm (p.1 - q.1, p.2 - q.2)

/-- np.clip for a scalar. -/
def clipR (x lo hi : ℝ) : ℝ := min (max x lo) hi

/-- calculate_wavelength_attenuation. -/
def calculate_wavelength_attenuation (wavelength : ℝ) : ℝ :=
  if 380 ≤ wavelength ∧ wavelength ≤ 780 then
    Real.exp (-0.1 * |wavelength - 550| / 230)
  else 0.5

/-- calculate_wavelength_overlap. -/
def calculate_wavelength_overlap (wavelength1 wavelength2 : ℝ) : ℝ :=
  Real.exp (-0.5 * ((wavelength1 - wavelength2) / 15) ^ 2)

/-- calculate_reflected_power: first-order reflections from the four walls. -/
def calculate_reflected_power (light_source : Component) (point_pos : ℝ × ℝ)
    (floor_plan : FloorPlan) (reflection_coeff wavelength : ℝ) : ℝ :=
  let pos := light_source.position
  let power := light_source.props.power
  let r := light_source.props.coverage_radius
  let wall_points : List (ℝ × ℝ) :=
    [(pos.1, 0), (pos.1, floor_plan.height), (0, pos.2), (floor_plan.width, pos.2)]
  (wall_points.map (fun wall_point =>
    let incident_vec : ℝ × ℝ := (wall_point.1 - pos.1, wall_point.2 - pos.2)
    let reflected_vec : ℝ × ℝ := (point_pos.1 - wall_point.1, point_pos.2 - wall_point.2)
    let incident_distance := npNorm incident_vec
    let reflected_distance := npNorm reflected_vec
    if incident_distance ≤ r ∧ reflected_distance ≤ r then
      let incident_angle := Real.arccos (clipR (incident_vec.2 / incident_distance) (-1) 1)
      power * reflection_coeff * Real.cos incident_angle /
          (incident_distance * reflected_distance) *
        calculate_wavelength_attenuation wavelength
    else 0)).sum

/-- Lambertian order m = -ln 2 / ln (cos (radians (beam_angle / 2))). -/
def lambertian_order (beam_angle : ℝ) : ℝ :=
  -Real.log 2 / Real.log (Real.cos (beam_angle / 2 * (Real.pi / 180)))

/-- The direct-path power one light source delivers at a point (the body of the
in-radius branch of analyze_coverage, reflections excluded). -/
def direct_power_at (ls : Component) (point_pos : ℝ × ℝ) : ℝ :=
  let distance := dist2 point_pos ls.position
  let incidence_angle := Real.arctan (distance / 2.0)
  let m := lambertian_order ls.props.beam_angle
  let lambertian := (m + 1) / (2 * Real.pi) * Real.cos incidence_angle ^ m
  ls.props.power * lambertian * Real.exp (-distance / ls.props.coverage_radius) *
    calculate_wavelength_attenuation ls.props.wavelength

/-- Total contribution (direct + reflected) of one light source at one point:
zero outside its coverage radius. -/
def source_contribution (floor_plan : FloorPlan) (ls : Component) (point_pos : ℝ × ℝ) : ℝ :=
  if dist2 point_pos ls.position ≤ ls.props.coverage_radius then
    direct_power_at ls point_pos +
      calculate_reflected_power ls point_pos floor_plan 0.3 ls.props.wavelength
  else 0

/-- The light-source sublist, in order. -/
def light_sources (components : List Component) : List Component :=
  components.filter (fun c => c.type = "Light Source")

/-- coverage_map value at one point: total signal over all light sources. -/
def coverage_at (floor_plan : FloorPlan) (components : List Component)
    (point_pos : ℝ × ℝ) : ℝ :=
  ((light_sources components).map (fun ls => source_contribution floor_plan ls point_pos)).sum

open Classical in
/-- Interference accumulated from the other light sources while the point is
inside the coverage radius of the primary source ls. -/
def interference_from_others (lss : List Component) (ls : Component)
    (point_pos : ℝ × ℝ) : ℝ :=
  (lss.map (fun other_ls =>
    if other_ls ≠ ls ∧
        0 < calculate_wavelength_overlap ls.props.wavelength other_ls.props.wavelength then
      if dist2 point_pos other_ls.position ≤ other_ls.props.coverage_radius then
        other_ls.props.power *
            calculate_wavelength_overlap ls.props.wavelength other_ls.props.wavelength *
          Real.exp (-dist2 point_pos other_ls.position / other_ls.props.coverage_radius)
      else 0
    else 0)).sum

open Classical in
/-- interference_map value at one point. -/
def interference_at (lss : List Component) (point_pos : ℝ × ℝ) : ℝ :=
  (lss.map (fun ls =>
    if dist2 point_pos ls.position ≤ ls.props.coverage_radius then
      interference_from_others lss ls point_pos
    else 0)).sum

/-- Thermal noise power constant of analyze_coverage. -/
def noise_power : ℝ := 1e-9

open Classical in
/-- sinr_map value at one point: 10 log10 of signal over interference plus
noise when the signal is positive, else the 0 sentinel. -/
def sinr_at (floor_plan : FloorPlan) (components : List Component)
    (point_pos : ℝ × ℝ) : ℝ :=
  if 0 < coverage_at floor_plan components point_pos then
    10 * Real.logb 10
      (coverage_at floor_plan components point_pos /
        (interference_at (light_sources components) point_pos + noise_power))
  else 0

/-- Number of np.arange(0, extent, 0.1) samples. -/
def gridCount (extent : ℝ) : ℕ := ⌈extent / 0.1⌉₊

/-- The evaluation grid of analyze_coverage in row-major (y outer) order. -/
def gridPoints (floor_plan : FloorPlan) : List (ℝ × ℝ) :=
  (List.range (gridCount floor_plan.height)).flatMap (fun j =>
    (List.range (gridCount floor_plan.width)).map (fun i =>
      ((Nat.cast i : ℝ) * 0.1, (Nat.cast j : ℝ) * 0.1)))

/-- np.mean of a list (junk value 0 for the empty list, where numpy gives nan). -/
def npMean (l : List ℝ) : ℝ := l.sum / l.length

/-- Minimum of a nonempty list (junk head default for the empty list, where
numpy raises). -/
def npMinL (l : List ℝ) : ℝ := l.foldr min (l.headD 0)

/-- Maximum of a nonempty list. -/
def npMaxL (l : List ℝ) : ℝ := l.foldr max (l.headD 0)

/-- The dictionary analyze_coverage returns. -/
structure CoverageResult where
  coverage_percentage : ℝ
  interference_points : ℕ
  coverage_map : List ℝ
  interference_map : List ℝ
  sinr_map : List ℝ
  average_sinr : ℝ
  min_sinr : ℝ
  max_sinr : ℝ

open Classical in
/-- The scalar metrics and maps computed at the end of analyze_coverage. -/
def mkCoverageResult (floor_plan : FloorPlan) (components : List Component) :
    CoverageResult :=
  let pts := gridPoints floor_plan
  let sinrs := pts.map (sinr_at floor_plan components)
  let nonzero := sinrs.filter (fun v => decide (v ≠ 0))
  { coverage_percentage :=
      ((pts.filter (fun p => decide (noise_power < coverage_at floor_plan components p))).length : ℝ) /
          (pts.length : ℝ) * 100
    interference_points :=
      (pts.filter (fun p => decide (0.1 * coverage_at floor_plan components p <
        interference_at (light_sources components) p))).length
    coverage_map := pts.map (coverage_at floor_plan components)
    interference_map := pts.map (interference_at (light_sources components))
    sinr_map := sinrs
    average_sinr := npMean nonzero
    min_sinr := npMinL nonzero
    max_sinr := npMaxL sinrs }

open Classical in
/-- analyze_coverage.  np.min over the selection sinr_map[sinr_map != 0] raises
ValueError when that selection is empty; this surfaces as the error branch. -/
def analyze_coverage (floor_plan : FloorPlan) (components : List Component) :
    Except String CoverageResult :=
  let sinrs := (gridPoints floor_plan).map (sinr_at floor_plan components)
  if (sinrs.filter (fun v => decide (v ≠ 0))) = [] then
    .error "zero-size array to reduction operation minimum which has no identity"
  else
    .ok (mkCoverageResult floor_plan components)

/-! ### Optimizer (optimization.py)

The scorer and its penalty terms are deterministic and embedded directly.
The two external numeric collaborators are passed as oracles: the initial
particle sample of np.random.uniform (initPositions), the per-iteration pair
of np.random.rand draws (rands), and scipy.optimize.minimize, modelled as a
function from the start vector and bounds to a final iterate together with
its convergence flag (OptimizeResult.x and OptimizeResult.success).

The Python component list is a list of references into a heap of dicts, so
list.copy() is a new list of the same references; mutation of a dict is a
heap update visible through every list holding the reference. -/

/-- The optimization_params dictionary. -/
structure OptParams where
  coverage_weight : ℝ
  interference_weight : ℝ
  power_weight : ℝ
  min_distance : ℝ
  wall_margin : ℝ
  max_iterations : ℕ

/-- The defaults installed when optimization_params is None. -/
def defaultParams : OptParams :=
  { coverage_weight := 0.4, interference_weight := 0.3, power_weight := 0.3,
    min_distance := 2.0, wall_margin := 0.5, max_iterations := 100 }

/-- The optimizer's coarse np.linspace(0, extent, 100) evaluation grid. -/
def scoreGrid (floor_plan : FloorPlan) : List (ℝ × ℝ) :=
  (List.range 100).flatMap (fun j =>
    (List.range 100).map (fun i =>
      (floor_plan.width * (Nat.cast i : ℝ) / 99, floor_plan.height * (Nat.cast j : ℝ) / 99)))

/-- The Gaussian coverage profile summed over all locations at one point. -/
def gaussian_coverage (locations : List (ℝ × ℝ)) (p : ℝ × ℝ) : ℝ :=
  (locations.map (fun loc => Real.exp (-0.5 * (dist2 p loc / 3.0) ^ 2))).sum

open Classical in
/-- calculate_coverage_score: Gaussian falloff over a fixed 100x100 linspace
grid, reporting the fraction of points whose summed coverage exceeds 0.2. -/
def calculate_coverage_score (floor_plan : FloorPlan) (locations : List (ℝ × ℝ)) : ℝ :=
  (((scoreGrid floor_plan).filter
      (fun p => decide (0.2 < gaussian_coverage locations p))).length : ℝ) /
    ((scoreGrid floor_plan).length : ℝ)

open Classical in
/-- Sum of f over the ordered pairs i < j of the double loop in
calculate_interference_penalty / calculate_spacing_penalty. -/
def pairSum (locations : List (ℝ × ℝ)) (f : ℝ → ℝ) : ℝ :=
  ∑ i ∈ Finset.range locations.length, ∑ j ∈ Finset.Ico (i + 1) locations.length,
    f (dist2 (locations.getD i (0, 0)) (locations.getD j (0, 0)))

open Classical in
/-- calculate_interference_penalty: exp(-distance) over pairs closer than the
hard-coded threshold 2.0. -/
def calculate_interference_penalty (locations : List (ℝ × ℝ)) : ℝ :=
  if locations.length < 2 then 0
  else pairSum locations (fun d => if d < 2.0 then Real.exp (-d) else 0)

open Classical in
/-- The interference penalty as the specification words it: the threshold is
the configurable minDistance.  Stated here only to be compared with the code's
calculate_interference_penalty. -/
def spec_interference_penalty (min_distance : ℝ) (locations : List (ℝ × ℝ)) : ℝ :=
  pairSum locations (fun d => if d < min_distance then Real.exp (-d) else 0)

open Classical in
/-- calculate_power_efficiency.  Python's max() over an empty location list
raises; that case is unreachable from the scorer whenever total_power is
nonzero, and the foldr-based npMaxL junk value stands in for it. -/
def calculate_power_efficiency (locations : List (ℝ × ℝ)) (components : List Component) : ℝ :=
  let total_power := ((light_sources components).map (fun c => c.props.power)).sum
  if total_power = 0 then 0
  else
    calculate_coverage_score
      { width := npMaxL (locations.map Prod.fst) + 3,
        height := npMaxL (locations.map Prod.snd) + 3 }
      locations / total_power

open Classical in
/-- calculate_wall_penalty. -/
def calculate_wall_penalty (locations : List (ℝ × ℝ)) (floor_plan : FloorPlan)
    (margin : ℝ) : ℝ :=
  (locations.map (fun loc =>
    let dist_to_walls :=
      min (min loc.1 (floor_plan.width - loc.1)) (min loc.2 (floor_plan.height - loc.2))
    if dist_to_walls < margin then (margin - dist_to_walls) ^ 2 else 0)).sum

open Classical in
/-- calculate_spacing_penalty. -/
def calculate_spacing_penalty (locations : List (ℝ × ℝ)) (min_distance : ℝ) : ℝ :=
  pairSum locations (fun d => if d < min_distance then (min_distance - d) ^ 2 else 0)

/-- positions.reshape(-1, 2). -/
def chunk2 : List ℝ → List (ℝ × ℝ)
  | a :: b :: rest => (a, b) :: chunk2 rest
  | _ => []

/-- multi_objective_function of optimize_placement. -/
def multi_objective_function (floor_plan : FloorPlan) (components : List Component)
    (params : OptParams) (positions : List ℝ) : ℝ :=
  let locations := chunk2 positions
  let coverage_score := calculate_coverage_score floor_plan locations
  let interference_penalty := calculate_interference_penalty locations
  let power_efficiency := calculate_power_efficiency locations components
  let wall_penalty := calculate_wall_penalty locations floor_plan params.wall_margin
  let spacing_penalty := calculate_spacing_penalty locations params.min_distance
  (-params.coverage_weight * coverage_score +
      params.interference_weight * interference_penalty +
      params.power_weight * (1 - power_efficiency) +
    5.0 * wall_penalty + 5.0 * spacing_penalty)

open Classical in
/-- The score as the specification words it, with powerEfficiency computed on
the given floor plan.  Stated here only to be compared with the code's
multi_objective_function. -/
def spec_score (floor_plan : FloorPlan) (components : List Component)
    (params : OptParams) (positions : List ℝ) : ℝ :=
  let locations := chunk2 positions
  let total_power := ((light_sources components).map (fun c => c.props.power)).sum
  let power_efficiency :=
    if total_power = 0 then 0
    else calculate_coverage_score floor_plan locations / total_power
  (-params.coverage_weight * calculate_coverage_score floor_plan locations +
      params.interference_weight * calculate_interference_penalty locations +
      params.power_weight * (1 - power_efficiency) +
    5.0 * calculate_wall_penalty locations floor_plan params.wall_margin +
    5.0 * calculate_spacing_penalty locations params.min_distance)

/-! ### PSO state machine -/

/-- PSOptimizer state.  best_scores and global_best start at float inf /
None; Option ℝ models the inf sentinel (none compares greater than any
score). -/
structure PSOState where
  positions : List (List ℝ)
  velocities : List (List ℝ)
  best_positions : List (List ℝ)
  best_scores : List (Option ℝ)
  global_best_position : Option (List ℝ)
  global_best_score : Option ℝ

/-- PSOptimizer.__init__ with the uniform sample passed in as an oracle. -/
def PSOinit (initPositions : List (List ℝ)) (n_particles dims : ℕ) : PSOState :=
  { positions := initPositions,
    velocities := List.replicate n_particles (List.replicate dims 0),
    best_positions := initPositions,
    best_scores := List.replicate n_particles none,
    global_best_position := none,
    global_best_score := none }

open Classical in
/-- np.argmin: index of the first minimal element. -/
def argminIdx (l : List ℝ) : ℕ :=
  (l.enum.foldl (fun acc p => if p.2 < acc.2 then p else acc) (0, l.headD 0)).1

open Classical in
/-- Whether a score improves on an Option-valued best (none = inf). -/
def improves (s : ℝ) (b : Option ℝ) : Prop :=
  match b with
  | none => True
  | some v => s < v

open Classical in
/-- PSOptimizer.update with w=0.7, c1=c2=1.5 and the two np.random.rand draws
passed in. -/
def PSOupdate (objective : List ℝ → ℝ) (bounds : List (ℝ × ℝ)) (r1 r2 : ℝ)
    (st : PSOState) : PSOState :=
  let n := st.positions.length
  let scores := st.positions.map objective
  let best_positions := (List.range n).map (fun i =>
    if improves (scores.getD i 0) (st.best_scores.getD i none) then st.positions.getD i []
    else st.best_positions.getD i [])
  let best_scores := (List.range n).map (fun i =>
    if improves (scores.getD i 0) (st.best_scores.getD i none) then some (scores.getD i 0)
    else st.best_scores.getD i none)
  let min_score_idx := argminIdx scores
  let better := improves (scores.getD min_score_idx 0) st.global_best_score
  let global_best_position :=
    if better then some (st.positions.getD min_score_idx []) else st.global_best_position
  let global_best_score :=
    if better then some (scores.getD min_score_idx 0) else st.global_best_score
  let gpos := global_best_position.getD []
  let velocities := (List.range n).map (fun i =>
    let p := st.positions.getD i []
    let v := st.velocities.getD i []
    let bp := best_positions.getD i []
    (List.range p.length).map (fun k =>
      0.7 * v.getD k 0 + 1.5 * r1 * (bp.getD k 0 - p.getD k 0) +
        1.5 * r2 * (gpos.getD k 0 - p.getD k 0)))
  let positions := (List.range n).map (fun i =>
    let p := st.positions.getD i []
    let v := velocities.getD i []
    (List.range p.length).map (fun k =>
      let b := bounds.getD k (0, 0)
      clipR (p.getD k 0 + v.getD k 0) b.1 b.2))
  { positions := positions, velocities := velocities, best_positions := best_positions,
    best_scores := best_scores, global_best_position := global_best_position,
    global_best_score := global_best_score }

open Classical in
/-- The PSO loop of optimize_placement: up to max_iterations updates with
early stop once the global best score beats -0.95. -/
def runPSO (objective : List ℝ → ℝ) (bounds : List (ℝ × ℝ)) (rands : ℕ → ℝ × ℝ) :
    ℕ → ℕ → PSOState → PSOState
  | 0, _, st => st
  | fuel + 1, iter, st =>
    let st' := PSOupdate objective bounds (rands iter).1 (rands iter).2 st
    if (match st'.global_best_score with | some s => s < -0.95 | none => False) then st'
    else runPSO objective bounds rands fuel (iter + 1) st'

/-- The per-dimension bound list built by the loop in optimize_placement. -/
def mkBounds (n : ℕ) (width height margin : ℝ) : List (ℝ × ℝ) :=
  (List.range n).flatMap (fun _ => [(margin, width - margin), (margin, height - margin)])

/-- comp['position'] = ... : a heap write through a component reference. -/
def set_position (heap : List Component) (r : ℕ) (p : ℝ × ℝ) : List Component :=
  heap.set r { heap.getD r defaultComponent with position := p }

/-- optimize_placement.  heap is the dict store, refs the caller's component
list (a list of references into the heap).  Returns the new heap together
with the new (shallow-copied) reference list; the caller's own list still
holds the same references into the same heap. -/
def optimize_placement (floor_plan : FloorPlan) (heap : List Component) (refs : List ℕ)
    (params : OptParams) (initPositions : List (List ℝ)) (rands : ℕ → ℝ × ℝ)
    (refiner : List ℝ → List (ℝ × ℝ) → List ℝ × Bool) : List Component × List ℕ :=
  let components := refs.map (fun r => heap.getD r defaultComponent)
  let initial_positions := components.flatMap (fun c => [c.position.1, c.position.2])
  let dims := initial_positions.length
  let bounds := mkBounds components.length floor_plan.width floor_plan.height params.wall_margin
  let n_particles := min 20 (4 * components.length)
  let objective := multi_objective_function floor_plan components params
  let pso := runPSO objective bounds rands params.max_iterations 0
    (PSOinit initPositions n_particles dims)
  let result := refiner (pso.global_best_position.getD (List.replicate dims 0)) bounds
  let optimized_positions := chunk2 result.1
  let optimized_heap := (refs.zip optimized_positions).foldl
    (fun h rp => set_position h rp.1 rp.2) heap
  (optimized_heap, refs)

/-! ### Basic lemmas about the analyzer -/

lemma coverage_at_nil (fp : FloorPlan) (p : ℝ × ℝ) : coverage_at fp [] p = 0 := by
  simp [coverage_at, light_sources]

lemma sinr_at_nil (fp : FloorPlan) (p : ℝ × ℝ) : sinr_at fp [] p = 0 := by
  simp [sinr_at, coverage_at_nil]

/-- The error branch of analyze_coverage fires exactly when every grid point
has the sentinel SINR. -/
lemma analyze_coverage_eq_ok (fp : FloorPlan) (comps : List Component)
    (h : ∃ p ∈ gridPoints fp, sinr_at fp comps p ≠ 0) :
    analyze_coverage fp comps = .ok (mkCoverageResult fp comps) := by
  unfold analyze_coverage
  rw [if_neg]
  intro hnil
  obtain ⟨p, hp, hne⟩ := h
  have hmem : sinr_at fp comps p ∈
      ((gridPoints fp).map (sinr_at fp comps)).filter (fun v => decide (v ≠ 0)) :=
    List.mem_filter.mpr ⟨List.mem_map_of_mem _ hp, by simpa using hne⟩
  rw [hnil] at hmem
  exact absurd hmem (List.not_mem_nil _)

/-- C3: for every floor plan, analyze_coverage on an empty component list
raises (np.min over the empty selection sinr_map[sinr_map != 0]), instead of
returning coverage_percentage 0 and interference_points 0. -/
theorem analyze_coverage_empty_raises (w h : ℝ) :
    analyze_coverage ⟨w, h⟩ [] =
      .error "zero-size array to reduction operation minimum which has no identity" := by
  unfold analyze_coverage
  rw [if_pos]
  apply List.filter_eq_nil_iff.mpr
  intro v hv
  obtain ⟨p, _, rfl⟩ := List.mem_map.mp hv
  simp [sinr_at_nil]

/-! ### C6: the interference-penalty threshold -/

lemma dist2_eval (a b c d : ℝ) : dist2 (a, b) (c, d) = Real.sqrt ((a - c) ^ 2 + (b - d) ^ 2) := rfl

/-- C6 counterexample: with minDistance = 5, the pair at distance 3 is counted
by the specification's formula but not by calculate_interference_penalty,
whose threshold is the hard-coded 2.0. -/
theorem interference_penalty_ignores_min_distance :
    calculate_interference_penalty [((1 : ℝ), (0 : ℝ)), ((4 : ℝ), (0 : ℝ))] ≠
      spec_interference_penalty 5 [((1 : ℝ), (0 : ℝ)), ((4 : ℝ), (0 : ℝ))] := by
  have hd : dist2 ((1 : ℝ), (0 : ℝ)) ((4 : ℝ), (0 : ℝ)) = 3 := by
    rw [dist2_eval]
    rw [show ((1 : ℝ) - 4) ^ 2 + ((0 : ℝ) - 0) ^ 2 = 3 ^ 2 by norm_num]
    exact Real.sqrt_sq (by norm_num)
  have hcode : calculate_interference_penalty [((1 : ℝ), (0 : ℝ)), ((4 : ℝ), (0 : ℝ))] = 0 := by
    unfold calculate_interference_penalty pairSum
    rw [if_neg (by norm_num)]
    simp only [List.length_cons, List.length_nil]
    rw [Finset.sum_range_succ, Finset.sum_range_succ, Finset.sum_range_zero]
    simp only [List.getD, List.get?_eq_getElem?]
    norm_num [hd]
  have hspec : spec_interference_penalty 5 [((1 : ℝ), (0 : ℝ)), ((4 : ℝ), (0 : ℝ))] =
      Real.exp (-3) := by
    unfold spec_interference_penalty pairSum
    simp only [List.length_cons, List.length_nil]
    rw [Finset.sum_range_succ, Finset.sum_range_succ, Finset.sum_range_zero]
    simp only [List.getD, List.get?_eq_getElem?]
    norm_num [hd]
  rw [hcode, hspec]
  exact fun h => absurd h.symm (Real.exp_ne_zero _)

/-- C6 amended: the code's interference penalty is the specification's
pair-sum formula with the threshold fixed at 2.0 m, independent of the
configured minDistance. -/
theorem interference_penalty_eq_spec_at_two (locations : List (ℝ × ℝ)) :
    calculate_interference_penalty locations = spec_interference_penalty 2 locations := by
  unfold calculate_interference_penalty spec_interference_penalty
  have hf : (fun d => if d < 2.0 then Real.exp (-d) else 0) =
      (fun d : ℝ => if d < 2 then Real.exp (-d) else 0) := by
    norm_num
  by_cases h : locations.length < 2
  · rw [if_pos h]
    interval_cases hl : locations.length <;> simp [pairSum, hl]
  · rw [if_neg h, hf]

/-! ### C10: interference only accrues inside a primary source's radius -/

lemma exists_ne_zero_of_sum_ne_zero {l : List ℝ} (h : l.sum ≠ 0) : ∃ x ∈ l, x ≠ 0 := by
  by_contra hall
  push_neg at hall
  exact h (List.sum_eq_zero hall)

/-- There is a primary light source covering the point together with a
distinct interferer whose radius also covers the point. -/
def covered_pair (lss : List Component) (p : ℝ × ℝ) : Prop :=
  ∃ ls ∈ lss, ∃ other ∈ lss, other ≠ ls ∧
    dist2 p ls.position ≤ ls.props.coverage_radius ∧
    dist2 p other.position ≤ other.props.coverage_radius

/-- C10: nonzero interference at a point requires a primary light source whose
coverage radius contains the point, distinct from the in-range interferer; in
particular a single light source never interferes with itself. -/
theorem interference_within_primary_radius (comps : List Component) (p : ℝ × ℝ) :
    (0 < interference_at (light_sources comps) p → covered_pair (light_sources comps) p) ∧
    ((light_sources comps).length ≤ 1 → interference_at (light_sources comps) p = 0) := by
  constructor
  · intro hpos
    obtain ⟨x, hx, hxne⟩ := exists_ne_zero_of_sum_ne_zero (ne_of_gt hpos)
    obtain ⟨ls, hls, rfl⟩ := List.mem_map.mp hx
    by_cases hd : dist2 p ls.position ≤ ls.props.coverage_radius
    · rw [if_pos hd] at hxne
      obtain ⟨y, hy, hyne⟩ := exists_ne_zero_of_sum_ne_zero hxne
      obtain ⟨other, hother, rfl⟩ := List.mem_map.mp hy
      by_cases hc : other ≠ ls ∧
          0 < calculate_wavelength_overlap ls.props.wavelength other.props.wavelength
      · rw [if_pos hc] at hyne
        by_cases hd2 : dist2 p other.position ≤ other.props.coverage_radius
        · exact ⟨ls, hls, other, hother, hc.1, hd, hd2⟩
        · rw [if_neg hd2] at hyne
          exact absurd rfl hyne
      · rw [if_neg hc] at hyne
        exact absurd rfl hyne
    · rw [if_neg hd] at hxne
      exact absurd rfl hxne
  · intro hlen
    match hl : light_sources comps with
    | [] => simp [interference_at]
    | [a] =>
      have hz : interference_from_others [a] a p = 0 := by
        simp only [interference_from_others, List.map_cons, List.map_nil,
          List.sum_cons, List.sum_nil]
        rw [if_neg (by simp)]
        ring
      simp only [interference_at, List.map_cons, List.map_nil, List.sum_cons, List.sum_nil, hz]
      rw [ite_self]
      ring
    | a :: b :: t => rw [hl] at hlen; simp at hlen

lemma overlap_pos (a b : ℝ) : 0 < calculate_wavelength_overlap a b := Real.exp_pos _

/-- Two distinct in-range light sources with positive power interfere. -/
lemma interference_two_pos (A B : Component) (p : ℝ × ℝ)
    (hBA : B ≠ A) (hAB : A ≠ B)
    (hdA : dist2 p A.position ≤ A.props.coverage_radius)
    (hdB : dist2 p B.position ≤ B.props.coverage_radius)
    (hPA : 0 < A.props.power) (hPB : 0 < B.props.power) :
    0 < interference_at [A, B] p := by
  have hcB : B ≠ A ∧
      0 < calculate_wavelength_overlap A.props.wavelength B.props.wavelength :=
    ⟨hBA, overlap_pos _ _⟩
  have hcA : A ≠ B ∧
      0 < calculate_wavelength_overlap B.props.wavelength A.props.wavelength :=
    ⟨hAB, overlap_pos _ _⟩
  simp only [interference_at, interference_from_others, List.map_cons, List.map_nil,
    List.sum_cons, List.sum_nil]
  rw [if_pos hdA, if_pos hdB, if_pos hcB, if_pos hcA, if_pos hdB, if_pos hdA,
    if_neg (show ¬(A ≠ A ∧
      0 < calculate_wavelength_overlap A.props.wavelength A.props.wavelength) by simp),
    if_neg (show ¬(B ≠ B ∧
      0 < calculate_wavelength_overlap B.props.wavelength B.props.wavelength) by simp)]
  have h1 : 0 < B.props.power *
      calculate_wavelength_overlap A.props.wavelength B.props.wavelength *
      Real.exp (-dist2 p B.position / B.props.coverage_radius) :=
    mul_pos (mul_pos hPB (overlap_pos _ _)) (Real.exp_pos _)
  have h2 : 0 < A.props.power *
      calculate_wavelength_overlap B.props.wavelength A.props.wavelength *
      Real.exp (-dist2 p A.position / A.props.coverage_radius) :=
    mul_pos (mul_pos hPA (overlap_pos _ _)) (Real.exp_pos _)
  rw [if_pos hdA]
  linarith

lemma c10_instance_pos :
    0 < interference_at (light_sources
      [{ type := "Light Source", id := 0, position := (1, 1),
         props := { power := 20, beam_angle := 120, wavelength := 550, coverage_radius := 3 } },
       { type := "Light Source", id := 1, position := (1, 2),
         props := { power := 20, beam_angle := 120, wavelength := 550, coverage_radius := 3 } }])
      ((1 : ℝ), (1 : ℝ)) := by
  have hls : light_sources
      [{ type := "Light Source", id := 0, position := (1, 1),
         props := { power := 20, beam_angle := 120, wavelength := 550, coverage_radius := 3 } },
       { type := "Light Source", id := 1, position := (1, 2),
         props := { power := 20, beam_angle := 120, wavelength := 550, coverage_radius := 3 } }] =
      [{ type := "Light Source", id := 0, position := (1, 1),
         props := { power := 20, beam_angle := 120, wavelength := 550, coverage_radius := 3 } },
       { type := "Light Source", id := 1, position := (1, 2),
         props := { power := 20, beam_angle := 120, wavelength := 550, coverage_radius := 3 } }] := by
    simp [light_sources]
  rw [hls]
  apply interference_two_pos
  · intro h
    have := congrArg Component.id h
    simp at this
  · intro h
    have := congrArg Component.id h
    simp at this
  · show dist2 ((1 : ℝ), (1 : ℝ)) ((1 : ℝ), (1 : ℝ)) ≤ 3
    rw [dist2_eval]
    rw [show ((1 : ℝ) - 1) ^ 2 + ((1 : ℝ) - 1) ^ 2 = 0 by norm_num]
    rw [Real.sqrt_zero]
    norm_num
  · show dist2 ((1 : ℝ), (1 : ℝ)) ((1 : ℝ), (2 : ℝ)) ≤ 3
    rw [dist2_eval]
    rw [show ((1 : ℝ) - 1) ^ 2 + ((1 : ℝ) - 2) ^ 2 = 1 by norm_num]
    rw [Real.sqrt_one]
    norm_num
  · show (0 : ℝ) < 20
    norm_num
  · show (0 : ℝ) < 20
    norm_num

/-- C10 witness: two in-range same-wavelength sources at (1,1) and (1,2)
produce positive interference at (1,1) and satisfy the covered-pair
conclusion; a single source produces no interference. -/
theorem interference_within_primary_radius_witness :
    covered_pair (light_sources
      [{ type := "Light Source", id := 0, position := (1, 1),
         props := { power := 20, beam_angle := 120, wavelength := 550, coverage_radius := 3 } },
       { type := "Light Source", id := 1, position := (1, 2),
         props := { power := 20, beam_angle := 120, wavelength := 550, coverage_radius := 3 } }])
      ((1 : ℝ), (1 : ℝ)) ∧
    interference_at (light_sources
      [{ type := "Light Source", id := 0, position := (1, 1),
         props := { power := 20, beam_angle := 120, wavelength := 550, coverage_radius := 3 } }])
      ((1 : ℝ), (1 : ℝ)) = 0 :=
  ⟨(interference_within_primary_radius _ _).1 c10_instance_pos,
   (interference_within_primary_radius
      [{ type := "Light Source", id := 0, position := (1, 1),
         props := { power := 20, beam_angle := 120, wavelength := 550, coverage_radius := 3 } }]
      ((1 : ℝ), (1 : ℝ))).2 (by simp [light_sources])⟩

/-! ### Heap-write lemmas for the optimizer's position-update loop -/

lemma set_position_length (h : List Component) (r : ℕ) (p : ℝ × ℝ) :
    (set_position h r p).length = h.length := by
  simp [set_position]

lemma set_position_getD_ne (h : List Component) (r s : ℕ) (p : ℝ × ℝ) (hne : s ≠ r) :
    (set_position h r p).getD s defaultComponent = h.getD s defaultComponent := by
  simp [set_position, List.getD, List.getElem?_set_ne (fun he => hne he.symm)]

lemma set_position_getD_self (h : List Component) (r : ℕ) (p : ℝ × ℝ) (hr : r < h.length) :
    (set_position h r p).getD r defaultComponent =
      { h.getD r defaultComponent with position := p } := by
  simp [set_position, List.getD, List.getElem?_set_self, hr]

lemma set_position_of_ge (h : List Component) (r : ℕ) (p : ℝ × ℝ) (hr : h.length ≤ r) :
    set_position h r p = h := by
  simp [set_position, List.set_eq_of_length_le hr]

/-- The fields other than position survive one heap write. -/
lemma set_position_fields (h : List Component) (r s : ℕ) (p : ℝ × ℝ) :
    ((set_position h r p).getD s defaultComponent).type =
        (h.getD s defaultComponent).type ∧
      ((set_position h r p).getD s defaultComponent).id = (h.getD s defaultComponent).id ∧
      ((set_position h r p).getD s defaultComponent).props =
        (h.getD s defaultComponent).props := by
  by_cases hs : s = r
  · subst hs
    by_cases hr : s < h.length
    · rw [set_position_getD_self h s p hr]
      exact ⟨rfl, rfl, rfl⟩
    · rw [set_position_of_ge h s p (le_of_not_lt hr)]
      exact ⟨rfl, rfl, rfl⟩
  · rw [set_position_getD_ne h r s p hs]
    exact ⟨rfl, rfl, rfl⟩

/-- The position-update loop of optimize_placement. -/
def write_positions (heap : List Component) (l : List (ℕ × (ℝ × ℝ))) : List Component :=
  l.foldl (fun h rp => set_position h rp.1 rp.2) heap

lemma write_positions_length (l : List (ℕ × (ℝ × ℝ))) :
    ∀ heap : List Component, (write_positions heap l).length = heap.length := by
  induction l with
  | nil => intro heap; rfl
  | cons a t ih =>
    intro heap
    show (write_positions (set_position heap a.1 a.2) t).length = heap.length
    rw [ih, set_position_length]

lemma write_positions_fields (l : List (ℕ × (ℝ × ℝ))) :
    ∀ (heap : List Component) (s : ℕ),
      ((write_positions heap l).getD s defaultComponent).type =
          (heap.getD s defaultComponent).type ∧
        ((write_positions heap l).getD s defaultComponent).id =
          (heap.getD s defaultComponent).id ∧
        ((write_positions heap l).getD s defaultComponent).props =
          (heap.getD s defaultComponent).props := by
  induction l with
  | nil => intro heap s; exact ⟨rfl, rfl, rfl⟩
  | cons a t ih =>
    intro heap s
    have h1 := ih (set_position heap a.1 a.2) s
    have h2 := set_position_fields heap a.1 s a.2
    exact ⟨h1.1.trans h2.1, h1.2.1.trans h2.2.1, h1.2.2.trans h2.2.2⟩

lemma write_positions_not_mem (l : List (ℕ × (ℝ × ℝ))) :
    ∀ (heap : List Component) (s : ℕ), s ∉ l.map Prod.fst →
      (write_positions heap l).getD s defaultComponent = heap.getD s defaultComponent := by
  induction l with
  | nil => intro heap s _; rfl
  | cons a t ih =>
    intro heap s hs
    simp only [List.map_cons, List.mem_cons, not_or] at hs
    have h1 := ih (set_position heap a.1 a.2) s hs.2
    rw [show write_positions heap (a :: t) = write_positions (set_position heap a.1 a.2) t
      from rfl, h1, set_position_getD_ne heap a.1 s a.2 hs.1]

/-- Every reference written by the loop ends at one of the written values. -/
lemma write_positions_mem (l : List (ℕ × (ℝ × ℝ))) :
    ∀ (heap : List Component) (s : ℕ), s ∈ l.map Prod.fst → s < heap.length →
      ∃ p ∈ l.map Prod.snd,
        ((write_positions heap l).getD s defaultComponent).position = p := by
  induction l with
  | nil => intro heap s hs _; simp at hs
  | cons a t ih =>
    intro heap s hs hlen
    by_cases hmem : s ∈ t.map Prod.fst
    · have hlen' : s < (set_position heap a.1 a.2).length := by
        rw [set_position_length]; exact hlen
      obtain ⟨p, hp, hpos⟩ := ih (set_position heap a.1 a.2) s hmem hlen'
      exact ⟨p, by simp [hp], hpos⟩
    · simp only [List.map_cons, List.mem_cons] at hs
      rcases hs with hs | hs
      · subst hs
        rw [show write_positions heap (a :: t) = write_positions (set_position heap a.1 a.2) t
          from rfl, write_positions_not_mem t _ _ hmem,
          set_position_getD_self heap a.1 a.2 hlen]
        exact ⟨a.2, by simp, rfl⟩
      · exact absurd hs hmem

/-! ### C4: the refiner's convergence flag is ignored -/

/-- C4 amended: optimize_placement returns the refiner's final iterate
reshaped into positions whatever the convergence flag says; replacing the
flag by anything leaves the result unchanged, so non-convergence is non-fatal
and the swarm's global best is not restored. -/
theorem optimize_placement_ignores_convergence_flag (fp : FloorPlan)
    (heap : List Component) (refs : List ℕ) (params : OptParams)
    (initPositions : List (List ℝ)) (rands : ℕ → ℝ × ℝ)
    (refiner : List ℝ → List (ℝ × ℝ) → List ℝ × Bool)
    (g : List ℝ → List (ℝ × ℝ) → Bool) :
    optimize_placement fp heap refs params initPositions rands refiner =
      optimize_placement fp heap refs params initPositions rands
        (fun s b => ((refiner s b).1, g s b)) := rfl

/-! ### C2: the frame of optimize_placement -/

/-- C2 amended: optimize_placement hands back a fresh reference list equal to
the caller's (same references, original order), every component keeps its
type, id and properties, and heap cells not referenced by the caller's list
are untouched; only position fields of referenced components are written (in
place, through the shared references). -/
theorem optimize_placement_frame (fp : FloorPlan) (heap : List Component)
    (refs : List ℕ) (params : OptParams) (initPositions : List (List ℝ))
    (rands : ℕ → ℝ × ℝ) (refiner : List ℝ → List (ℝ × ℝ) → List ℝ × Bool) :
    (optimize_placement fp heap refs params initPositions rands refiner).2 = refs ∧
    (optimize_placement fp heap refs params initPositions rands refiner).1.length =
      heap.length ∧
    (∀ s : ℕ,
      (((optimize_placement fp heap refs params initPositions rands refiner).1.getD s
          defaultComponent).type = (heap.getD s defaultComponent).type) ∧
      (((optimize_placement fp heap refs params initPositions rands refiner).1.getD s
          defaultComponent).id = (heap.getD s defaultComponent).id) ∧
      (((optimize_placement fp heap refs params initPositions rands refiner).1.getD s
          defaultComponent).props = (heap.getD s defaultComponent).props)) ∧
    (∀ s : ℕ, s ∉ refs →
      (optimize_placement fp heap refs params initPositions rands refiner).1.getD s
          defaultComponent = heap.getD s defaultComponent) := by
  refine ⟨rfl, ?_, ?_, ?_⟩
  · exact write_positions_length _ heap
  · intro s
    exact write_positions_fields _ heap s
  · intro s hs
    apply write_positions_not_mem
    intro hmem
    apply hs
    obtain ⟨pair, hpair, rfl⟩ := List.mem_map.mp hmem
    exact (List.of_mem_zip hpair).1

/-! ### One concrete PSO step for the degenerate all-equal swarm -/

lemma argminIdx_four (s : ℝ) : argminIdx [s, s, s, s] = 0 := by
  simp [argminIdx, List.enum, List.enumFrom, lt_self_iff_false]

/-- With four identical particles and one iteration, the swarm's global best
is that shared position. -/
lemma runPSO_one_const (obj : List ℝ → ℝ) (bounds : List (ℝ × ℝ))
    (rands : ℕ → ℝ × ℝ) (p0 : List ℝ) :
    (runPSO obj bounds rands 1 0 (PSOinit [p0, p0, p0, p0] 4 2)).global_best_position =
      some p0 := by
  have h0 : ∀ st, runPSO obj bounds rands 0 1 st = st := fun _ => rfl
  rw [show (1 : ℕ) = 0 + 1 from rfl, runPSO]
  simp only [h0, ite_self]
  simp only [PSOupdate, PSOinit, List.map_cons, List.map_nil]
  rw [argminIdx_four (obj p0)]
  simp [improves]

/-- C2 counterexample: optimize_placement writes the optimized position into
the very component object the caller's list references (components.copy() is
a shallow copy), so the caller's component, which held (2,2), reads (5,5)
after the call. -/
theorem optimize_placement_mutates_caller_components :
    ((optimize_placement ⟨10, 10⟩
        [{ type := "Light Source", id := 0, position := (2, 2),
           props := { power := 20, beam_angle := 120, wavelength := 550,
                      coverage_radius := 3 } }]
        [0] ⟨0.4, 0.3, 0.3, 2, 0.5, 1⟩ [[2, 2], [2, 2], [2, 2], [2, 2]] (fun _ => (0, 0))
        (fun _ _ => ([5, 5], true))).1.getD 0 defaultComponent).position =
      ((5 : ℝ), (5 : ℝ)) ∧
    ({ type := "Light Source", id := 0, position := (2, 2),
       props := { power := 20, beam_angle := 120, wavelength := 550,
                  coverage_radius := 3 } } : Component).position = ((2 : ℝ), (2 : ℝ)) ∧
    ((5 : ℝ), (5 : ℝ)) ≠ ((2 : ℝ), (2 : ℝ)) := by
  refine ⟨?_, rfl, by norm_num [Prod.mk.injEq]⟩
  simp [optimize_placement, chunk2, set_position, List.getD]

/-- C4 counterexample: with a refiner that moves every coordinate by one and
reports failure, optimize_placement still returns the refiner's iterate
(3,3), not the swarm's global best position (2,2). -/
theorem refiner_result_used_when_not_converged :
    ((fun (start : List ℝ) (_ : List (ℝ × ℝ)) => (start.map (fun v => v + 1), false))
        [2, 2] (mkBounds 1 10 10 0.5)).2 = false ∧
    (runPSO (multi_objective_function ⟨10, 10⟩
        [{ type := "Light Source", id := 0, position := (2, 2),
           props := { power := 20, beam_angle := 120, wavelength := 550,
                      coverage_radius := 3 } }]
        ⟨0.4, 0.3, 0.3, 2, 0.5, 1⟩) (mkBounds 1 10 10 0.5) (fun _ => (0, 0)) 1 0
        (PSOinit [[2, 2], [2, 2], [2, 2], [2, 2]] 4 2)).global_best_position =
      some [2, 2] ∧
    ((optimize_placement ⟨10, 10⟩
        [{ type := "Light Source", id := 0, position := (2, 2),
           props := { power := 20, beam_angle := 120, wavelength := 550,
                      coverage_radius := 3 } }]
        [0] ⟨0.4, 0.3, 0.3, 2, 0.5, 1⟩ [[2, 2], [2, 2], [2, 2], [2, 2]] (fun _ => (0, 0))
        (fun start _ => (start.map (fun v => v + 1), false))).1.getD 0
      defaultComponent).position = ((3 : ℝ), (3 : ℝ)) ∧
    ((3 : ℝ), (3 : ℝ)) ≠ ((2 : ℝ), (2 : ℝ)) := by
  refine ⟨rfl, runPSO_one_const _ _ _ _, ?_, by norm_num [Prod.mk.injEq]⟩
  simp only [optimize_placement]
  simp only [List.map_cons, List.map_nil, List.getD, List.getElem?_cons_zero, Option.getD_some,
    List.flatMap_cons, List.flatMap_nil, List.length_cons, List.length_nil, List.append_nil]
  norm_num
  rw [runPSO_one_const]
  simp [chunk2, set_position, List.getD]
  norm_num

/-! ### C1: bounds preservation -/

lemma chunk2_length : ∀ l : List ℝ, (chunk2 l).length = l.length / 2
  | [] => by norm_num [show chunk2 [] = [] from rfl]
  | [a] => by norm_num [show chunk2 [a] = [] from rfl]
  | a :: b :: t => by
    show (chunk2 t).length + 1 = (t.length + 1 + 1) / 2
    rw [chunk2_length t]
    omega

lemma chunk2_getD : ∀ (l : List ℝ) (k : ℕ), k < (chunk2 l).length →
    (chunk2 l).getD k (0, 0) = (l.getD (2 * k) 0, l.getD (2 * k + 1) 0)
  | [], k, h => by simp [chunk2] at h
  | [a], k, h => by simp [chunk2] at h
  | a :: b :: t, 0, _ => rfl
  | a :: b :: t, k + 1, h => by
    have ih := chunk2_getD t k (by
      have : (chunk2 (a :: b :: t)).length = (chunk2 t).length + 1 := rfl
      omega)
    show ((a, b) :: chunk2 t).getD (k + 1) (0, 0) = _
    rw [List.getD_cons_succ, ih]
    rw [show 2 * (k + 1) = (2 * k + 1) + 1 by ring,
      show (2 * k + 1) + 1 + 1 = (2 * k + 1 + 1) + 1 by ring]
    rw [List.getD_cons_succ, List.getD_cons_succ, List.getD_cons_succ, List.getD_cons_succ]

lemma mkBounds_succ (n : ℕ) (w h m : ℝ) :
    mkBounds (n + 1) w h m = (m, w - m) :: (m, h - m) :: mkBounds n w h m := by
  simp [mkBounds, List.range_succ_eq_map, List.flatMap_cons, List.flatMap_map]

lemma mkBounds_getD_even (n : ℕ) (w h m : ℝ) :
    ∀ k, k < n → (mkBounds n w h m).getD (2 * k) (0, 0) = (m, w - m) := by
  induction n with
  | zero => omega
  | succ n ih =>
    intro k hk
    rw [mkBounds_succ]
    cases k with
    | zero => rfl
    | succ k =>
      rw [show 2 * (k + 1) = (2 * k + 1) + 1 by ring, List.getD_cons_succ, List.getD_cons_succ]
      exact ih k (by omega)

lemma mkBounds_getD_odd (n : ℕ) (w h m : ℝ) :
    ∀ k, k < n → (mkBounds n w h m).getD (2 * k + 1) (0, 0) = (m, h - m) := by
  induction n with
  | zero => omega
  | succ n ih =>
    intro k hk
    rw [mkBounds_succ]
    cases k with
    | zero => rfl
    | succ k =>
      rw [show 2 * (k + 1) + 1 = (2 * k + 1 + 1) + 1 by ring, List.getD_cons_succ,
        List.getD_cons_succ]
      exact ih k (by omega)

/-- Every position of the returned component list is inside
[0, width] x [0, height]. -/
def positions_in_bounds (fp : FloorPlan) (out : List Component × List ℕ) : Prop :=
  ∀ i, i < out.2.length →
    0 ≤ ((out.1.getD (out.2.getD i 0) defaultComponent).position.1) ∧
    ((out.1.getD (out.2.getD i 0) defaultComponent).position.1) ≤ fp.width ∧
    0 ≤ ((out.1.getD (out.2.getD i 0) defaultComponent).position.2) ∧
    ((out.1.getD (out.2.getD i 0) defaultComponent).position.2) ≤ fp.height

/-- Bounds for the written heap when the refiner's iterate respects the
per-dimension bounds. -/
lemma write_positions_bounds (heap : List Component) (refs : List ℕ) (res : List ℝ)
    (w h m : ℝ) (hm0 : 0 ≤ m) (hmw : m ≤ w) (hmh : m ≤ h)
    (hlen : res.length = 2 * refs.length)
    (hres : ∀ i, i < 2 * refs.length →
      ((mkBounds refs.length w h m).getD i (0, 0)).1 ≤ res.getD i 0 ∧
        res.getD i 0 ≤ ((mkBounds refs.length w h m).getD i (0, 0)).2)
    (i : ℕ) (hi : i < refs.length) :
    0 ≤ ((write_positions heap (refs.zip (chunk2 res))).getD (refs.getD i 0)
        defaultComponent).position.1 ∧
    ((write_positions heap (refs.zip (chunk2 res))).getD (refs.getD i 0)
        defaultComponent).position.1 ≤ w ∧
    0 ≤ ((write_positions heap (refs.zip (chunk2 res))).getD (refs.getD i 0)
        defaultComponent).position.2 ∧
    ((write_positions heap (refs.zip (chunk2 res))).getD (refs.getD i 0)
        defaultComponent).position.2 ≤ h := by
  have hchl : (chunk2 res).length = refs.length := by
    rw [chunk2_length, hlen]
    omega
  have hrmem : refs.getD i 0 ∈ refs := by
    rw [List.getD_eq_getElem refs 0 hi]
    exact List.getElem_mem hi
  by_cases hr : refs.getD i 0 < heap.length
  · have hmemfst : refs.getD i 0 ∈ (refs.zip (chunk2 res)).map Prod.fst := by
      rw [List.map_fst_zip refs (chunk2 res) (le_of_eq hchl.symm)]
      exact hrmem
    obtain ⟨p, hp, hpos⟩ := write_positions_mem (refs.zip (chunk2 res)) heap _ hmemfst hr
    rw [List.map_snd_zip refs (chunk2 res) (le_of_eq hchl)] at hp
    obtain ⟨k, hk, hkp⟩ := List.mem_iff_getElem.mp hp
    have hkd : (chunk2 res).getD k (0, 0) = p := by
      rw [List.getD_eq_getElem (chunk2 res) (0, 0) hk]
      exact hkp
    have hklt : k < refs.length := hchl ▸ hk
    have hpk := chunk2_getD res k hk
    rw [hkd] at hpk
    have heven := hres (2 * k) (by omega)
    have hodd := hres (2 * k + 1) (by omega)
    rw [mkBounds_getD_even refs.length w h m k hklt] at heven
    rw [mkBounds_getD_odd refs.length w h m k hklt] at hodd
    rw [hpos, hpk]
    simp at heven hodd ⊢
    refine ⟨by linarith, by linarith, by linarith, by linarith⟩
  · have hlen' : heap.length ≤ refs.getD i 0 := le_of_not_lt hr
    have : (write_positions heap (refs.zip (chunk2 res))).getD (refs.getD i 0)
        defaultComponent = defaultComponent := by
      apply List.getD_eq_default
      rw [write_positions_length]
      exact hlen'
    rw [this]
    refine ⟨by simp [defaultComponent], by simp [defaultComponent]; linarith,
      by simp [defaultComponent], by simp [defaultComponent]; linarith⟩

/-- C1: under wall margins inside the floor and a refiner that respects its
bound list (scipy's bounded SLSQP contract), every position returned by
optimize_placement lies in [0, width] x [0, height], and no component is
discarded (the returned list keeps the caller's length). -/
theorem optimize_placement_positions_within_floor (fp : FloorPlan)
    (heap : List Component) (refs : List ℕ) (params : OptParams)
    (initPositions : List (List ℝ)) (rands : ℕ → ℝ × ℝ)
    (refiner : List ℝ → List (ℝ × ℝ) → List ℝ × Bool)
    (hm0 : 0 ≤ params.wall_margin) (hmw : params.wall_margin ≤ fp.width)
    (hmh : params.wall_margin ≤ fp.height) (_hiter : 1 ≤ params.max_iterations)
    (href : ∀ start : List ℝ,
      (refiner start (mkBounds refs.length fp.width fp.height params.wall_margin)).1.length =
          2 * refs.length ∧
      ∀ i, i < 2 * refs.length →
        ((mkBounds refs.length fp.width fp.height params.wall_margin).getD i (0, 0)).1 ≤
            (refiner start
              (mkBounds refs.length fp.width fp.height params.wall_margin)).1.getD i 0 ∧
          (refiner start
              (mkBounds refs.length fp.width fp.height params.wall_margin)).1.getD i 0 ≤
            ((mkBounds refs.length fp.width fp.height params.wall_margin).getD i (0, 0)).2) :
    (optimize_placement fp heap refs params initPositions rands refiner).2.length =
      refs.length ∧
    positions_in_bounds fp (optimize_placement fp heap refs params initPositions rands refiner) := by
  constructor
  · rfl
  · intro i hi
    have hi' : i < refs.length := hi
    simp only [optimize_placement, List.length_map]
    exact write_positions_bounds heap refs _ fp.width fp.height params.wall_margin hm0 hmw hmh
      (href _).1 (href _).2 i hi'

/-- C1 witness: a 10 x 10 floor, one component, the default weights and
margin, and a refiner returning the lower bound of every dimension. -/
theorem optimize_placement_positions_within_floor_witness :
    (optimize_placement ⟨10, 10⟩
        [{ type := "Light Source", id := 0, position := (1, 1),
           props := { power := 20, beam_angle := 120, wavelength := 550,
                      coverage_radius := 3 } }]
        [0] ⟨0.4, 0.3, 0.3, 2, 0.5, 100⟩ [[1, 1]] (fun _ => (0, 0))
        (fun _ bnds => (bnds.map Prod.fst, true))).2.length = 1 ∧
    positions_in_bounds ⟨10, 10⟩ (optimize_placement ⟨10, 10⟩
        [{ type := "Light Source", id := 0, position := (1, 1),
           props := { power := 20, beam_angle := 120, wavelength := 550,
                      coverage_radius := 3 } }]
        [0] ⟨0.4, 0.3, 0.3, 2, 0.5, 100⟩ [[1, 1]] (fun _ => (0, 0))
        (fun _ bnds => (bnds.map Prod.fst, true))) := by
  have hb : mkBounds ([0] : List ℕ).length (10 : ℝ) (10 : ℝ) (0.5 : ℝ) =
      [(0.5, 9.5), (0.5, 9.5)] := by
    rw [show ([0] : List ℕ).length = 0 + 1 from rfl, mkBounds_succ]
    norm_num [mkBounds]
  have h := optimize_placement_positions_within_floor ⟨10, 10⟩
    [{ type := "Light Source", id := 0, position := (1, 1),
       props := { power := 20, beam_angle := 120, wavelength := 550,
                  coverage_radius := 3 } }]
    [0] ⟨0.4, 0.3, 0.3, 2, 0.5, 100⟩ [[1, 1]] (fun _ => (0, 0))
    (fun _ bnds => (bnds.map Prod.fst, true))
    (by norm_num) (by norm_num) (by norm_num) (by norm_num)
    (fun start => by
      refine ⟨?_, ?_⟩
      · show ((mkBounds ([0] : List ℕ).length (10 : ℝ) (10 : ℝ) (0.5 : ℝ)).map
          Prod.fst).length = 2 * ([0] : List ℕ).length
        rw [hb]
        rfl
      · intro i hi
        show ((mkBounds ([0] : List ℕ).length (10 : ℝ) (10 : ℝ) (0.5 : ℝ)).getD i (0, 0)).1 ≤
            ((mkBounds ([0] : List ℕ).length (10 : ℝ) (10 : ℝ) (0.5 : ℝ)).map
              Prod.fst).getD i 0 ∧
          ((mkBounds ([0] : List ℕ).length (10 : ℝ) (10 : ℝ) (0.5 : ℝ)).map
              Prod.fst).getD i 0 ≤
            ((mkBounds ([0] : List ℕ).length (10 : ℝ) (10 : ℝ) (0.5 : ℝ)).getD i (0, 0)).2
        rw [hb]
        have hi' : i < 2 := hi
        interval_cases i <;> norm_num)
  exact h

/-! ### Evaluation helpers for concrete analyzer instances -/

lemma atten_550 : calculate_wavelength_attenuation 550 = 1 := by
  unfold calculate_wavelength_attenuation
  rw [if_pos (by norm_num : (380 : ℝ) ≤ 550 ∧ (550 : ℝ) ≤ 780)]
  norm_num

lemma lambertian_order_120 : lambertian_order 120 = 1 := by
  unfold lambertian_order
  rw [show (120 : ℝ) / 2 * (Real.pi / 180) = Real.pi / 3 by ring, Real.cos_pi_div_three,
    show (1 : ℝ) / 2 = 2⁻¹ by norm_num, Real.log_inv, neg_div_neg_eq]
  exact div_self (ne_of_gt (Real.log_pos (by norm_num)))

lemma lambertian_order_180 : lambertian_order 180 = 0 := by
  unfold lambertian_order
  rw [show (180 : ℝ) / 2 * (Real.pi / 180) = Real.pi / 2 by ring, Real.cos_pi_div_two,
    Real.log_zero, div_zero]

lemma dist2_self (p : ℝ × ℝ) : dist2 p p = 0 := by
  rw [dist2, npNorm]
  simp

lemma interference_at_singleton (a : Component) (p : ℝ × ℝ) :
    interference_at [a] p = 0 := by
  have hz : interference_from_others [a] a p = 0 := by
    simp only [interference_from_others, List.map_cons, List.map_nil,
      List.sum_cons, List.sum_nil]
    rw [if_neg (by simp)]
    ring
  simp only [interference_at, List.map_cons, List.map_nil, List.sum_cons, List.sum_nil, hz]
  rw [ite_self]
  ring

lemma light_sources_single (c : Component) (h : c.type = "Light Source") :
    light_sources [c] = [c] := by
  simp [light_sources, h]

lemma gridCount_ten : gridCount 10 = 100 := by
  unfold gridCount
  rw [show (10 : ℝ) / 0.1 = 100 by norm_num]
  simp

lemma gridCount_twenty : gridCount 20 = 200 := by
  unfold gridCount
  rw [show (20 : ℝ) / 0.1 = 200 by norm_num]
  simp

lemma mem_gridPoints (fp : FloorPlan) (i j : ℕ) (hi : i < gridCount fp.width)
    (hj : j < gridCount fp.height) :
    ((i : ℝ) * 0.1, (j : ℝ) * 0.1) ∈ gridPoints fp := by
  unfold gridPoints
  refine List.mem_flatMap.mpr ⟨j, List.mem_range.mpr hj, ?_⟩
  exact List.mem_map_of_mem _ (List.mem_range.mpr hi)

lemma five_five_mem_grid_ten : ((5 : ℝ), (5 : ℝ)) ∈ gridPoints ⟨10, 10⟩ := by
  have hw : gridCount (⟨10, 10⟩ : FloorPlan).width = 100 := gridCount_ten
  have hh : gridCount (⟨10, 10⟩ : FloorPlan).height = 100 := gridCount_ten
  rw [show ((5 : ℝ), (5 : ℝ)) = (((50 : ℕ) : ℝ) * 0.1, ((50 : ℕ) : ℝ) * 0.1) by norm_num]
  exact mem_gridPoints ⟨10, 10⟩ 50 50 (by rw [hw]; norm_num) (by rw [hh]; norm_num)

/-! ### C5: no DomainError at the beam-angle boundary -/

lemma c5_reflected_zero :
    calculate_reflected_power
      { type := "Light Source", id := 0, position := (5, 5),
        props := { power := 20, beam_angle := 180, wavelength := 550, coverage_radius := 3 } }
      ((5 : ℝ), (5 : ℝ)) ⟨10, 10⟩ 0.3 550 = 0 := by
  simp only [calculate_reflected_power, List.map_cons, List.map_nil, List.sum_cons,
    List.sum_nil]
  have h5 : npNorm ((0 : ℝ), (-5 : ℝ)) = 5 := by
    rw [npNorm]
    rw [show (0 : ℝ) ^ 2 + (-5 : ℝ) ^ 2 = 5 ^ 2 by norm_num]
    exact Real.sqrt_sq (by norm_num)
  have h5' : npNorm ((-5 : ℝ), (0 : ℝ)) = 5 := by
    rw [npNorm]
    rw [show (-5 : ℝ) ^ 2 + (0 : ℝ) ^ 2 = 5 ^ 2 by norm_num]
    exact Real.sqrt_sq (by norm_num)
  have h5'' : npNorm ((5 : ℝ), (0 : ℝ)) = 5 := by
    rw [npNorm]
    rw [show (5 : ℝ) ^ 2 + (0 : ℝ) ^ 2 = 5 ^ 2 by norm_num]
    exact Real.sqrt_sq (by norm_num)
  have h5''' : npNorm ((0 : ℝ), (5 : ℝ)) = 5 := by
    rw [npNorm]
    rw [show (0 : ℝ) ^ 2 + (5 : ℝ) ^ 2 = 5 ^ 2 by norm_num]
    exact Real.sqrt_sq (by norm_num)
  norm_num [h5, h5', h5'', h5''']

lemma c5_coverage :
    coverage_at ⟨10, 10⟩
      [{ type := "Light Source", id := 0, position := (5, 5),
         props := { power := 20, beam_angle := 180, wavelength := 550,
                    coverage_radius := 3 } }] ((5 : ℝ), (5 : ℝ)) = 10 / Real.pi := by
  rw [coverage_at, light_sources_single _ rfl]
  simp only [List.map_cons, List.map_nil, List.sum_cons, List.sum_nil, source_contribution,
    direct_power_at, dist2_self, neg_zero, zero_div, add_zero]
  rw [if_pos (by norm_num : (0 : ℝ) ≤ 3)]
  rw [c5_reflected_zero]
  rw [Real.arctan_zero, Real.cos_zero, lambertian_order_180, Real.one_rpow, atten_550,
    Real.exp_zero]
  ring

lemma c5_analyze_ok :
    analyze_coverage ⟨10, 10⟩
      [{ type := "Light Source", id := 0, position := (5, 5),
         props := { power := 20, beam_angle := 180, wavelength := 550,
                    coverage_radius := 3 } }] =
      .ok (mkCoverageResult ⟨10, 10⟩
        [{ type := "Light Source", id := 0, position := (5, 5),
           props := { power := 20, beam_angle := 180, wavelength := 550,
                      coverage_radius := 3 } }]) := by
  apply analyze_coverage_eq_ok
  refine ⟨((5 : ℝ), (5 : ℝ)), five_five_mem_grid_ten, ?_⟩
  rw [sinr_at, c5_coverage, light_sources_single _ rfl, interference_at_singleton]
  rw [if_pos (by positivity)]
  have hgt : (1 : ℝ) < 10 / Real.pi / (0 + noise_power) := by
    rw [noise_power]
    rw [zero_add]
    rw [div_div]
    rw [lt_div_iff₀ (by positivity)]
    nlinarith [Real.pi_lt_d2]
  have := Real.logb_pos (by norm_num : (1 : ℝ) < 10) hgt
  positivity

/-- C5 counterexample: the boundary beam angle 180 is accepted by the only
validation present (the edit control's [30, 180] range) and analyze_coverage
evaluates the grid and returns a full coverage result for it; no DomainError
is raised before grid evaluation. -/
theorem beam_angle_boundary_not_rejected :
    beam_angle_input_valid 180 ∧
    analyze_coverage ⟨10, 10⟩
      [{ type := "Light Source", id := 0, position := (5, 5),
         props := { power := 20, beam_angle := 180, wavelength := 550,
                    coverage_radius := 3 } }] =
      .ok (mkCoverageResult ⟨10, 10⟩
        [{ type := "Light Source", id := 0, position := (5, 5),
           props := { power := 20, beam_angle := 180, wavelength := 550,
                      coverage_radius := 3 } }]) :=
  ⟨⟨by norm_num, le_refl 180⟩, c5_analyze_ok⟩

/-- C5 amended: there is no DomainError; add_component constructs light
sources with the default beam angle 120 and validates nothing, the edit
control's range [30, 180] accepts the boundary value 180 (0 is refused only
for being below the 30 minimum), and the analyzer still evaluates the grid
and produces a full result for a beam angle of 180. -/
theorem beam_angle_boundary_amended :
    ((add_component "Light Source" []).1.getD 0 defaultComponent).props.beam_angle = 120 ∧
    ¬beam_angle_input_valid 0 ∧
    beam_angle_input_valid 180 ∧
    analyze_coverage ⟨10, 10⟩
      [{ type := "Light Source", id := 0, position := (5, 5),
         props := { power := 20, beam_angle := 180, wavelength := 550,
                    coverage_radius := 3 } }] =
      .ok (mkCoverageResult ⟨10, 10⟩
        [{ type := "Light Source", id := 0, position := (5, 5),
           props := { power := 20, beam_angle := 180, wavelength := 550,
                      coverage_radius := 3 } }]) :=
  ⟨by norm_num [add_component, _get_default_properties],
   fun h => absurd h.1 (by norm_num),
   ⟨by norm_num, le_refl 180⟩, c5_analyze_ok⟩

/-! ### C7: which points the SINR aggregates range over -/

lemma npNorm_gt (a b c : ℝ) (h : c ^ 2 < a ^ 2 + b ^ 2) : ¬npNorm (a, b) ≤ c :=
  not_le.mpr (Real.lt_sqrt_of_sq_lt h)

lemma le_foldr_max (init : ℝ) : ∀ l : List ℝ, ∀ v ∈ l, v ≤ l.foldr max init
  | a :: t, v, hv => by
    rcases List.mem_cons.mp hv with h | h
    · subst h
      exact le_max_left _ _
    · exact le_trans (le_foldr_max init t v h) (le_max_right _ _)

lemma foldr_max_le (c : ℝ) : ∀ (l : List ℝ) (init : ℝ), init ≤ c → (∀ v ∈ l, v ≤ c) →
    l.foldr max init ≤ c
  | [], _, hinit, _ => hinit
  | a :: t, init, hinit, hall => by
    simp only [List.foldr_cons]
    exact max_le (hall a (List.mem_cons_self a t))
      (foldr_max_le c t init hinit fun v hv => hall v (List.mem_cons_of_mem a hv))

lemma foldr_max_lt (c : ℝ) : ∀ (l : List ℝ) (init : ℝ), init < c → (∀ v ∈ l, v < c) →
    l.foldr max init < c
  | [], _, hinit, _ => hinit
  | a :: t, init, hinit, hall => by
    simp only [List.foldr_cons]
    exact max_lt (hall a (List.mem_cons_self a t))
      (foldr_max_lt c t init hinit fun v hv => hall v (List.mem_cons_of_mem a hv))

lemma npMaxL_eq_zero (l : List ℝ) (h0 : (0 : ℝ) ∈ l) (hall : ∀ v ∈ l, v ≤ 0) :
    npMaxL l = 0 := by
  refine le_antisymm ?_ (le_foldr_max _ l 0 h0)
  apply foldr_max_le 0 l _ ?_ hall
  cases l with
  | nil => exact absurd h0 (List.not_mem_nil 0)
  | cons a t => exact hall a (List.mem_cons_self a t)

lemma npMaxL_neg (l : List ℝ) (hne : l ≠ []) (hall : ∀ v ∈ l, v < 0) : npMaxL l < 0 := by
  cases l with
  | nil => exact absurd rfl hne
  | cons a t =>
    exact foldr_max_lt 0 (a :: t) a (hall a (List.mem_cons_self a t)) hall

open Classical in
/-- The maximum-SINR aggregate as the claim words it: taken only over the
grid points whose coverage is nonzero.  Stated here only to be compared with
the code's maximum over the whole map. -/
def spec_max_sinr (fp : FloorPlan) (comps : List Component) : ℝ :=
  npMaxL (((gridPoints fp).filter (fun p => decide (coverage_at fp comps p ≠ 0))).map
    (sinr_at fp comps))

def c7fp : FloorPlan := ⟨20, 20⟩

def c7ls : Component :=
  { type := "Light Source", id := 0, position := (5, 5),
    props := { power := 1e-12, beam_angle := 120, wavelength := 550, coverage_radius := 3 } }

lemma c7ls_type : c7ls.type = "Light Source" := rfl
lemma c7ls_pos : c7ls.position = ((5 : ℝ), (5 : ℝ)) := rfl
lemma c7ls_power : c7ls.props.power = 1e-12 := rfl
lemma c7ls_beam : c7ls.props.beam_angle = 120 := rfl
lemma c7ls_wl : c7ls.props.wavelength = 550 := rfl
lemma c7ls_radius : c7ls.props.coverage_radius = 3 := rfl
lemma c7fp_w : c7fp.width = 20 := rfl
lemma c7fp_h : c7fp.height = 20 := rfl

lemma c7_reflected_zero (p : ℝ × ℝ) :
    calculate_reflected_power c7ls p c7fp 0.3 550 = 0 := by
  simp only [calculate_reflected_power, c7ls_pos, c7ls_power, c7ls_radius, c7fp_w, c7fp_h,
    List.map_cons, List.map_nil, List.sum_cons, List.sum_nil]
  rw [if_neg (fun hc => absurd hc.1 (npNorm_gt _ _ _ (by norm_num))),
    if_neg (fun hc => absurd hc.1 (npNorm_gt _ _ _ (by norm_num))),
    if_neg (fun hc => absurd hc.1 (npNorm_gt _ _ _ (by norm_num))),
    if_neg (fun hc => absurd hc.1 (npNorm_gt _ _ _ (by norm_num)))]
  norm_num

lemma c7_coverage (p : ℝ × ℝ) :
    coverage_at c7fp [c7ls] p =
      if dist2 p ((5 : ℝ), (5 : ℝ)) ≤ 3 then
        1e-12 * ((1 + 1) / (2 * Real.pi) *
            Real.cos (Real.arctan (dist2 p ((5 : ℝ), (5 : ℝ)) / 2.0))) *
          Real.exp (-dist2 p ((5 : ℝ), (5 : ℝ)) / 3)
      else 0 := by
  rw [coverage_at, light_sources_single _ c7ls_type]
  simp only [List.map_cons, List.map_nil, List.sum_cons, List.sum_nil, add_zero,
    source_contribution, direct_power_at, c7ls_pos, c7ls_radius, c7ls_wl, c7ls_beam,
    c7ls_power, lambertian_order_120, Real.rpow_one, atten_550, c7_reflected_zero, mul_one]

lemma c7_cov_cases (p : ℝ × ℝ) :
    coverage_at c7fp [c7ls] p = 0 ∨
      (0 < coverage_at c7fp [c7ls] p ∧ coverage_at c7fp [c7ls] p < noise_power) := by
  rw [c7_coverage]
  by_cases hd : dist2 p ((5 : ℝ), (5 : ℝ)) ≤ 3
  · right
    rw [if_pos hd]
    have hd0 : (0 : ℝ) ≤ dist2 p ((5 : ℝ), (5 : ℝ)) := Real.sqrt_nonneg _
    have hc0 := Real.cos_arctan_pos (dist2 p ((5 : ℝ), (5 : ℝ)) / 2.0)
    have hc1 : Real.cos (Real.arctan (dist2 p ((5 : ℝ), (5 : ℝ)) / 2.0)) ≤ 1 :=
      Real.cos_le_one _
    have he0 : (0 : ℝ) < Real.exp (-dist2 p ((5 : ℝ), (5 : ℝ)) / 3) := Real.exp_pos _
    have he1 : Real.exp (-dist2 p ((5 : ℝ), (5 : ℝ)) / 3) ≤ 1 :=
      Real.exp_le_one_iff.mpr (by linarith)
    constructor
    · positivity
    · rw [noise_power]
      have hA : (1 + 1) / (2 * Real.pi) ≤ 1 / 3 := by
        rw [div_le_div_iff₀ (by positivity) (by norm_num)]
        nlinarith [Real.pi_gt_three]
      calc 1e-12 * ((1 + 1) / (2 * Real.pi) *
              Real.cos (Real.arctan (dist2 p ((5 : ℝ), (5 : ℝ)) / 2.0))) *
            Real.exp (-dist2 p ((5 : ℝ), (5 : ℝ)) / 3)
          ≤ 1e-12 * (1 / 3 * 1) * 1 := by
            apply mul_le_mul _ he1 he0.le (by norm_num)
            apply mul_le_mul_of_nonneg_left _ (by norm_num)
            exact mul_le_mul hA hc1 hc0.le (by norm_num)
        _ < 1e-9 := by norm_num
  · left
    rw [if_neg hd]

lemma c7_sinr_neg_of_cov_pos (p : ℝ × ℝ) (hp : 0 < coverage_at c7fp [c7ls] p) :
    sinr_at c7fp [c7ls] p < 0 := by
  have hlt : coverage_at c7fp [c7ls] p < noise_power := by
    rcases c7_cov_cases p with h | h
    · rw [h] at hp
      exact absurd hp (lt_irrefl 0)
    · exact h.2
  rw [sinr_at, if_pos hp, light_sources_single _ c7ls_type, interference_at_singleton,
    zero_add]
  have hratio : coverage_at c7fp [c7ls] p / noise_power < 1 := by
    rw [div_lt_one (show (0 : ℝ) < noise_power by norm_num [noise_power])]
    exact hlt
  have := Real.logb_neg (show (1 : ℝ) < 10 by norm_num)
    (div_pos hp (show (0 : ℝ) < noise_power by norm_num [noise_power])) hratio
  linarith

lemma c7_sinr_nonpos (p : ℝ × ℝ) : sinr_at c7fp [c7ls] p ≤ 0 := by
  rcases c7_cov_cases p with h | h
  · rw [sinr_at, h]
    rw [if_neg (lt_irrefl 0)]
  · exact le_of_lt (c7_sinr_neg_of_cov_pos p h.1)

lemma c7_cov_55_pos : 0 < coverage_at c7fp [c7ls] ((5 : ℝ), (5 : ℝ)) := by
  rw [c7_coverage, dist2_self, if_pos (by norm_num : (0 : ℝ) ≤ 3)]
  rw [show ((0 : ℝ) / 2.0) = 0 by norm_num, Real.arctan_zero, Real.cos_zero]
  positivity

lemma c7_sinr_55_neg : sinr_at c7fp [c7ls] ((5 : ℝ), (5 : ℝ)) < 0 :=
  c7_sinr_neg_of_cov_pos _ c7_cov_55_pos

lemma c7_cov_00 : coverage_at c7fp [c7ls] ((0 : ℝ), (0 : ℝ)) = 0 := by
  rw [c7_coverage, if_neg]
  rw [dist2]
  exact npNorm_gt _ _ _ (by norm_num)

lemma c7_sinr_00 : sinr_at c7fp [c7ls] ((0 : ℝ), (0 : ℝ)) = 0 := by
  rw [sinr_at, c7_cov_00, if_neg (lt_irrefl 0)]

lemma c7_55_mem : ((5 : ℝ), (5 : ℝ)) ∈ gridPoints c7fp := by
  have hw : gridCount c7fp.width = 200 := gridCount_twenty
  have hh : gridCount c7fp.height = 200 := gridCount_twenty
  rw [show ((5 : ℝ), (5 : ℝ)) = (((50 : ℕ) : ℝ) * 0.1, ((50 : ℕ) : ℝ) * 0.1) by norm_num]
  exact mem_gridPoints c7fp 50 50 (by rw [hw]; norm_num) (by rw [hh]; norm_num)

lemma c7_00_mem : ((0 : ℝ), (0 : ℝ)) ∈ gridPoints c7fp := by
  have hw : gridCount c7fp.width = 200 := gridCount_twenty
  have hh : gridCount c7fp.height = 200 := gridCount_twenty
  rw [show ((0 : ℝ), (0 : ℝ)) = (((0 : ℕ) : ℝ) * 0.1, ((0 : ℕ) : ℝ) * 0.1) by norm_num]
  exact mem_gridPoints c7fp 0 0 (by rw [hw]; norm_num) (by rw [hh]; norm_num)

/-- C7 counterexample: a 20 x 20 floor with one femtowatt source at (5,5) —
every covered point has strictly negative SINR, yet the reported max_sinr is
the 0 sentinel of the uncovered points: max_sinr ranges over the whole map,
so zero-coverage points are not excluded from it. -/
theorem max_sinr_includes_sentinel :
    analyze_coverage c7fp [c7ls] = .ok (mkCoverageResult c7fp [c7ls]) ∧
    (mkCoverageResult c7fp [c7ls]).max_sinr = 0 ∧
    spec_max_sinr c7fp [c7ls] < 0 := by
  refine ⟨analyze_coverage_eq_ok _ _ ⟨((5 : ℝ), (5 : ℝ)), c7_55_mem,
    ne_of_lt c7_sinr_55_neg⟩, ?_, ?_⟩
  · show npMaxL ((gridPoints c7fp).map (sinr_at c7fp [c7ls])) = 0
    apply npMaxL_eq_zero
    · rw [← c7_sinr_00]
      exact List.mem_map_of_mem _ c7_00_mem
    · intro v hv
      obtain ⟨p, _, rfl⟩ := List.mem_map.mp hv
      exact c7_sinr_nonpos p
  · rw [spec_max_sinr]
    apply npMaxL_neg
    · exact List.ne_nil_of_mem (List.mem_map_of_mem _
        (List.mem_filter.mpr ⟨c7_55_mem, by simp [ne_of_gt c7_cov_55_pos]⟩))
    · intro v hv
      obtain ⟨p, hp, rfl⟩ := List.mem_map.mp hv
      have hcov : coverage_at c7fp [c7ls] p ≠ 0 := by
        simpa using (List.mem_filter.mp hp).2
      rcases c7_cov_cases p with h | h
      · exact absurd h hcov
      · exact c7_sinr_neg_of_cov_pos p h.1

/-- C7 amended: zero-coverage points carry the SINR sentinel 0 and are
excluded from the average and minimum aggregates (computed over the nonzero
entries), but max_sinr is the maximum of the whole map, sentinel included. -/
theorem sinr_sentinel_aggregates (fp : FloorPlan) (comps : List Component)
    (r : CoverageResult) (h : analyze_coverage fp comps = .ok r) :
    (∀ p : ℝ × ℝ, coverage_at fp comps p = 0 → sinr_at fp comps p = 0) ∧
    r.average_sinr =
      npMean (((gridPoints fp).map (sinr_at fp comps)).filter (fun v => decide (v ≠ 0))) ∧
    r.min_sinr =
      npMinL (((gridPoints fp).map (sinr_at fp comps)).filter (fun v => decide (v ≠ 0))) ∧
    r.max_sinr = npMaxL ((gridPoints fp).map (sinr_at fp comps)) ∧
    (∀ p : ℝ × ℝ, coverage_at fp comps p = 0 →
      sinr_at fp comps p ∉
        ((gridPoints fp).map (sinr_at fp comps)).filter (fun v => decide (v ≠ 0))) := by
  have hz : ∀ p : ℝ × ℝ, coverage_at fp comps p = 0 → sinr_at fp comps p = 0 := by
    intro p hp
    rw [sinr_at, hp, if_neg (lt_irrefl 0)]
  have hr : r = mkCoverageResult fp comps := by
    rw [analyze_coverage] at h
    by_cases hc : ((gridPoints fp).map (sinr_at fp comps)).filter
        (fun v => decide (v ≠ 0)) = []
    · rw [if_pos hc] at h
      exact absurd h (by simp)
    · rw [if_neg hc] at h
      exact (Except.ok.injEq _ _).mp h.symm
  subst hr
  refine ⟨hz, rfl, rfl, rfl, ?_⟩
  intro p hp hmem
  rw [hz p hp] at hmem
  have := (List.mem_filter.mp hmem).2
  simp at this

/-- C7 witness at the boundary-beam instance used for C5: the aggregates of
the returned result are exactly the filtered min and whole-map max. -/
theorem sinr_sentinel_aggregates_witness :
    (mkCoverageResult ⟨10, 10⟩
        [{ type := "Light Source", id := 0, position := (5, 5),
           props := { power := 20, beam_angle := 180, wavelength := 550,
                      coverage_radius := 3 } }]).max_sinr =
      npMaxL ((gridPoints ⟨10, 10⟩).map (sinr_at ⟨10, 10⟩
        [{ type := "Light Source", id := 0, position := (5, 5),
           props := { power := 20, beam_angle := 180, wavelength := 550,
                      coverage_radius := 3 } }])) ∧
    (mkCoverageResult ⟨10, 10⟩
        [{ type := "Light Source", id := 0, position := (5, 5),
           props := { power := 20, beam_angle := 180, wavelength := 550,
                      coverage_radius := 3 } }]).min_sinr =
      npMinL (((gridPoints ⟨10, 10⟩).map (sinr_at ⟨10, 10⟩
        [{ type := "Light Source", id := 0, position := (5, 5),
           props := { power := 20, beam_angle := 180, wavelength := 550,
                      coverage_radius := 3 } }])).filter (fun v => decide (v ≠ 0))) :=
  ⟨(sinr_sentinel_aggregates _ _ _ c5_analyze_ok).2.2.2.1,
   (sinr_sentinel_aggregates _ _ _ c5_analyze_ok).2.2.1⟩

/-! ### C9: coverage additivity and the failure of monotonicity -/

lemma npNorm_le (a b c : ℝ) (hc : 0 ≤ c) (h : a ^ 2 + b ^ 2 ≤ c ^ 2) : npNorm (a, b) ≤ c :=
  (Real.sqrt_le_left hc).mpr h

/-- C9 amended: coverage is additive over light sources — appending one light
source changes the coverage at every point by exactly that source's own
direct-plus-reflected contribution (which the counterexample shows can be
negative, so monotonicity fails). -/
theorem coverage_additive_append (fp : FloorPlan) (comps : List Component)
    (c : Component) (h : c.type = "Light Source") (p : ℝ × ℝ) :
    coverage_at fp (comps ++ [c]) p =
      coverage_at fp comps p + source_contribution fp c p := by
  unfold coverage_at light_sources
  rw [List.filter_append, List.map_append, List.sum_append]
  congr 1
  simp [h]

/-- C9 witness: additivity at a concrete floor, empty base list and default
light source. -/
theorem coverage_additive_append_witness :
    coverage_at ⟨1, 1⟩ ([] ++
        [{ type := "Light Source", id := 0, position := (0, 0),
           props := { power := 20, beam_angle := 120, wavelength := 550,
                      coverage_radius := 3 } }]) ((0 : ℝ), (0 : ℝ)) =
      coverage_at ⟨1, 1⟩ [] ((0 : ℝ), (0 : ℝ)) +
        source_contribution ⟨1, 1⟩
          { type := "Light Source", id := 0, position := (0, 0),
            props := { power := 20, beam_angle := 120, wavelength := 550,
                       coverage_radius := 3 } } ((0 : ℝ), (0 : ℝ)) :=
  coverage_additive_append ⟨1, 1⟩ []
    { type := "Light Source", id := 0, position := (0, 0),
      props := { power := 20, beam_angle := 120, wavelength := 550,
                 coverage_radius := 3 } } rfl ((0 : ℝ), (0 : ℝ))

def c9ls : Component :=
  { type := "Light Source", id := 0, position := (5, 0.1),
    props := { power := 20, beam_angle := 120, wavelength := 550, coverage_radius := 10 } }

lemma c9ls_type : c9ls.type = "Light Source" := rfl
lemma c9ls_pos : c9ls.position = ((5 : ℝ), (0.1 : ℝ)) := rfl
lemma c9ls_power : c9ls.props.power = 20 := rfl
lemma c9ls_beam : c9ls.props.beam_angle = 120 := rfl
lemma c9ls_wl : c9ls.props.wavelength = 550 := rfl
lemma c9ls_radius : c9ls.props.coverage_radius = 10 := rfl

lemma c9_dist : dist2 ((5 : ℝ), (5 : ℝ)) ((5 : ℝ), (0.1 : ℝ)) = 4.9 := by
  rw [dist2, npNorm]
  rw [show ((5 : ℝ) - 5) ^ 2 + ((5 : ℝ) - 0.1) ^ 2 = 4.9 ^ 2 by norm_num]
  exact Real.sqrt_sq (by norm_num)

lemma lambertian_coeff_le_third : (1 + 1) / (2 * Real.pi) ≤ 1 / 3 := by
  rw [div_le_div_iff₀ (by positivity) (by norm_num)]
  nlinarith [Real.pi_gt_three]

lemma c9_direct_le : direct_power_at c9ls ((5 : ℝ), (5 : ℝ)) ≤ 10 / 3 := by
  simp only [direct_power_at, c9ls_pos, c9ls_power, c9ls_beam, c9ls_wl, c9ls_radius,
    c9_dist, lambertian_order_120, Real.rpow_one, atten_550, mul_one]
  have hc0 := Real.cos_arctan_pos ((4.9 : ℝ) / 2.0)
  have hc : Real.cos (Real.arctan ((4.9 : ℝ) / 2.0)) ≤ 1 / 2 := by
    have h2 : (2 : ℝ) ≤ Real.sqrt (1 + (4.9 / 2.0) ^ 2) := by
      apply Real.le_sqrt_of_sq_le
      norm_num
    rw [Real.cos_arctan]
    rw [div_le_div_iff₀ (by positivity) (by norm_num)]
    linarith
  have he0 : (0 : ℝ) < Real.exp (-4.9 / 10) := Real.exp_pos _
  have he1 : Real.exp ((-4.9 : ℝ) / 10) ≤ 1 := Real.exp_le_one_iff.mpr (by norm_num)
  calc 20 * ((1 + 1) / (2 * Real.pi) * Real.cos (Real.arctan ((4.9 : ℝ) / 2.0))) *
        Real.exp (-4.9 / 10)
      ≤ 20 * (1 / 3 * (1 / 2)) * 1 := by
        apply mul_le_mul _ he1 he0.le (by norm_num)
        apply mul_le_mul_of_nonneg_left _ (by norm_num : (0 : ℝ) ≤ 20)
        exact mul_le_mul lambertian_coeff_le_third hc hc0.le (by norm_num)
    _ ≤ 10 / 3 := by norm_num

lemma c9_reflected :
    calculate_reflected_power c9ls ((5 : ℝ), (5 : ℝ)) ⟨20, 20⟩ 0.3 550 = -12 := by
  have h01 : npNorm ((5 : ℝ) - 5, (0 : ℝ) - 0.1) = 0.1 := by
    rw [npNorm]
    rw [show ((5 : ℝ) - 5) ^ 2 + ((0 : ℝ) - 0.1) ^ 2 = 0.1 ^ 2 by norm_num]
    exact Real.sqrt_sq (by norm_num)
  have h5 : npNorm ((5 : ℝ) - 5, (5 : ℝ) - 0) = 5 := by
    rw [npNorm]
    rw [show ((5 : ℝ) - 5) ^ 2 + ((5 : ℝ) - 0) ^ 2 = 5 ^ 2 by norm_num]
    exact Real.sqrt_sq (by norm_num)
  have h5' : npNorm ((0 : ℝ) - 5, (0.1 : ℝ) - 0.1) = 5 := by
    rw [npNorm]
    rw [show ((0 : ℝ) - 5) ^ 2 + ((0.1 : ℝ) - 0.1) ^ 2 = 5 ^ 2 by norm_num]
    exact Real.sqrt_sq (by norm_num)
  have hcond1 : npNorm ((5 : ℝ) - 5, (0 : ℝ) - 0.1) ≤ 10 ∧
      npNorm ((5 : ℝ) - 5, (5 : ℝ) - 0) ≤ 10 :=
    ⟨by rw [h01]; norm_num, by rw [h5]; norm_num⟩
  have hcond2 : ¬(npNorm ((5 : ℝ) - 5, (20 : ℝ) - 0.1) ≤ 10 ∧
      npNorm ((5 : ℝ) - 5, (5 : ℝ) - 20) ≤ 10) :=
    fun hc => absurd hc.1 (npNorm_gt _ _ _ (by norm_num))
  have hcond3 : npNorm ((0 : ℝ) - 5, (0.1 : ℝ) - 0.1) ≤ 10 ∧
      npNorm ((5 : ℝ) - 0, (5 : ℝ) - 0.1) ≤ 10 :=
    ⟨by rw [h5']; norm_num, npNorm_le _ _ _ (by norm_num) (by norm_num)⟩
  have hcond4 : ¬(npNorm ((20 : ℝ) - 5, (0.1 : ℝ) - 0.1) ≤ 10 ∧
      npNorm ((5 : ℝ) - 20, (5 : ℝ) - 0.1) ≤ 10) :=
    fun hc => absurd hc.1 (npNorm_gt _ _ _ (by norm_num))
  simp only [calculate_reflected_power, c9ls_pos, c9ls_power, c9ls_radius,
    List.map_cons, List.map_nil, List.sum_cons, List.sum_nil, atten_550]
  rw [if_pos hcond1, if_neg hcond2, if_pos hcond3, if_neg hcond4]
  rw [h01, h5, h5']
  rw [show ((0 : ℝ) - 0.1) / 0.1 = -1 by norm_num]
  rw [show ((0.1 : ℝ) - 0.1) / 5 = 0 by norm_num]
  have hclipA : clipR (-1 : ℝ) (-1) 1 = -1 := by
    rw [clipR, max_self]
    exact min_eq_left (by norm_num)
  have hclipB : clipR (0 : ℝ) (-1) 1 = 0 := by
    rw [clipR, max_eq_left (by norm_num : (-1 : ℝ) ≤ 0)]
    exact min_eq_left (by norm_num)
  rw [hclipA, hclipB, Real.arccos_neg_one, Real.arccos_zero, Real.cos_pi,
    Real.cos_pi_div_two]
  norm_num

lemma c9_coverage_55_neg : coverage_at ⟨20, 20⟩ [c9ls] ((5 : ℝ), (5 : ℝ)) < 0 := by
  rw [coverage_at, light_sources_single _ c9ls_type]
  simp only [List.map_cons, List.map_nil, List.sum_cons, List.sum_nil, add_zero]
  rw [source_contribution, c9ls_pos, c9ls_radius, c9ls_wl, c9_dist]
  rw [if_pos (by norm_num : (4.9 : ℝ) ≤ 10)]
  rw [c9_reflected]
  linarith [c9_direct_le]

/-- C9 counterexample: at grid point (5,5) of a 20 x 20 floor, adding the
light source at (5, 0.1) with coverage radius 10 makes coverage strictly
negative (bottom-wall reflection term -12 versus direct path at most 10/3),
strictly below the 0 coverage of the original empty list. -/
theorem adding_light_source_decreases_coverage :
    ((5 : ℝ), (5 : ℝ)) ∈ gridPoints ⟨20, 20⟩ ∧
    coverage_at ⟨20, 20⟩ ([] ++ [c9ls]) ((5 : ℝ), (5 : ℝ)) <
      coverage_at ⟨20, 20⟩ [] ((5 : ℝ), (5 : ℝ)) := by
  constructor
  · have hw : gridCount (⟨20, 20⟩ : FloorPlan).width = 200 := gridCount_twenty
    have hh : gridCount (⟨20, 20⟩ : FloorPlan).height = 200 := gridCount_twenty
    rw [show ((5 : ℝ), (5 : ℝ)) = (((50 : ℕ) : ℝ) * 0.1, ((50 : ℕ) : ℝ) * 0.1) by norm_num]
    exact mem_gridPoints ⟨20, 20⟩ 50 50 (by rw [hw]; norm_num) (by rw [hh]; norm_num)
  · rw [List.nil_append, coverage_at_nil]
    exact c9_coverage_55_neg

/-! ### C8: the power-efficiency term of the scorer -/

lemma scoreGrid_length (fp : FloorPlan) : (scoreGrid fp).length = 10000 := by
  rw [scoreGrid, List.length_flatMap]
  have : (List.range 100).map
      (List.length ∘ fun j => (List.range 100).map (fun i =>
        (fp.width * (Nat.cast i : ℝ) / 99, fp.height * (Nat.cast j : ℝ) / 99))) =
      List.replicate 100 100 := by
    rw [show (List.length ∘ fun j : ℕ => (List.range 100).map (fun i =>
      (fp.width * (Nat.cast i : ℝ) / 99, fp.height * (Nat.cast j : ℝ) / 99))) =
        fun _ : ℕ => 100 from funext fun j => by simp, List.map_const', List.length_range]
  rw [this, List.sum_replicate, smul_eq_mul]

lemma mem_scoreGrid (fp : FloorPlan) (i j : ℕ) (hi : i < 100) (hj : j < 100) :
    (fp.width * (Nat.cast i : ℝ) / 99, fp.height * (Nat.cast j : ℝ) / 99) ∈ scoreGrid fp := by
  unfold scoreGrid
  refine List.mem_flatMap.mpr ⟨j, List.mem_range.mpr hj, ?_⟩
  exact List.mem_map_of_mem _ (List.mem_range.mpr hi)

lemma mem_scoreGrid_elim (fp : FloorPlan) (p : ℝ × ℝ) (hp : p ∈ scoreGrid fp) :
    ∃ i j : ℕ, i < 100 ∧ j < 100 ∧
      p = (fp.width * (Nat.cast i : ℝ) / 99, fp.height * (Nat.cast j : ℝ) / 99) := by
  unfold scoreGrid at hp
  obtain ⟨j, hj, hp⟩ := List.mem_flatMap.mp hp
  obtain ⟨i, hi, rfl⟩ := List.mem_map.mp hp
  exact ⟨i, j, List.mem_range.mp hi, List.mem_range.mp hj, rfl⟩

lemma exp_neg_one_gt : (0.2 : ℝ) < Real.exp (-1) := by
  have h5 : Real.exp 1 < 5 := lt_trans Real.exp_one_lt_d9 (by norm_num)
  have hp : (0 : ℝ) < Real.exp 1 := Real.exp_pos 1
  rw [Real.exp_neg]
  rw [show (0.2 : ℝ) = 5⁻¹ by norm_num]
  exact inv_lt_inv_of_lt hp h5

lemma exp_neg_two_lt : Real.exp (-2) < 0.2 := by
  have h5 : (5 : ℝ) < Real.exp 2 := by
    have h1 : (2.7182818283 : ℝ) < Real.exp 1 := Real.exp_one_gt_d9
    have : Real.exp 2 = Real.exp 1 * Real.exp 1 := by
      rw [← Real.exp_add]
      norm_num
    nlinarith
  rw [Real.exp_neg]
  rw [show (0.2 : ℝ) = 5⁻¹ by norm_num]
  exact inv_lt_inv_of_lt (by norm_num) h5

/-- Every point of the 3 x 3 derived plan's grid clears the 0.2 threshold for
a single source at the origin. -/
lemma c8_bbox_score : calculate_coverage_score ⟨3, 3⟩ [((0 : ℝ), (0 : ℝ))] = 1 := by
  rw [calculate_coverage_score]
  rw [List.filter_eq_self.mpr ?all]
  · rw [scoreGrid_length]
    norm_num
  case all =>
    intro p hp
    rw [decide_eq_true_eq]
    obtain ⟨i, j, hi, hj, rfl⟩ := mem_scoreGrid_elim _ p hp
    rw [gaussian_coverage, List.map_cons, List.map_nil, List.sum_cons, List.sum_nil, add_zero]
    have hx0 : (0 : ℝ) ≤ (⟨3, 3⟩ : FloorPlan).width * (Nat.cast i : ℝ) / 99 := by
      rw [show (⟨3, 3⟩ : FloorPlan).width = 3 from rfl]
      positivity
    have hy0 : (0 : ℝ) ≤ (⟨3, 3⟩ : FloorPlan).height * (Nat.cast j : ℝ) / 99 := by
      rw [show (⟨3, 3⟩ : FloorPlan).height = 3 from rfl]
      positivity
    have hx3 : (⟨3, 3⟩ : FloorPlan).width * (Nat.cast i : ℝ) / 99 ≤ 3 := by
      rw [show (⟨3, 3⟩ : FloorPlan).width = 3 from rfl]
      rw [div_le_iff₀ (by norm_num)]
      have : (Nat.cast i : ℝ) ≤ 99 := by
        have := Nat.lt_succ_iff.mp (by omega : i < Nat.succ 99)
        exact_mod_cast this
      nlinarith
    have hy3 : (⟨3, 3⟩ : FloorPlan).height * (Nat.cast j : ℝ) / 99 ≤ 3 := by
      rw [show (⟨3, 3⟩ : FloorPlan).height = 3 from rfl]
      rw [div_le_iff₀ (by norm_num)]
      have : (Nat.cast j : ℝ) ≤ 99 := by
        have := Nat.lt_succ_iff.mp (by omega : j < Nat.succ 99)
        exact_mod_cast this
      nlinarith
    set x := (⟨3, 3⟩ : FloorPlan).width * (Nat.cast i : ℝ) / 99 with hxdef
    set y := (⟨3, 3⟩ : FloorPlan).height * (Nat.cast j : ℝ) / 99 with hydef
    have hd : dist2 (x, y) ((0 : ℝ), (0 : ℝ)) = Real.sqrt (x ^ 2 + y ^ 2) := by
      rw [dist2, npNorm]
      norm_num
    rw [hd]
    have hsq : Real.sqrt (x ^ 2 + y ^ 2) ^ 2 = x ^ 2 + y ^ 2 :=
      Real.sq_sqrt (by positivity)
    have harg : -1 ≤ -0.5 * (Real.sqrt (x ^ 2 + y ^ 2) / 3.0) ^ 2 := by
      rw [div_pow, hsq]
      nlinarith
    calc (0.2 : ℝ) < Real.exp (-1) := exp_neg_one_gt
      _ ≤ Real.exp (-0.5 * (Real.sqrt (x ^ 2 + y ^ 2) / 3.0) ^ 2) := Real.exp_le_exp.mpr harg

/-- The far corner of the 20 x 20 floor plan fails the 0.2 threshold, so the
coarse score over the given floor plan is strictly below 1. -/
lemma c8_fp20_score_lt : calculate_coverage_score ⟨20, 20⟩ [((0 : ℝ), (0 : ℝ))] < 1 := by
  rw [calculate_coverage_score]
  rw [div_lt_one (by rw [scoreGrid_length]; norm_num)]
  rw [Nat.cast_lt]
  apply List.length_filter_lt_length_iff_exists.mpr
  refine ⟨((⟨20, 20⟩ : FloorPlan).width * (Nat.cast 99 : ℝ) / 99,
    (⟨20, 20⟩ : FloorPlan).height * (Nat.cast 99 : ℝ) / 99),
    mem_scoreGrid _ 99 99 (by norm_num) (by norm_num), ?_⟩
  rw [decide_eq_true_eq]
  rw [not_lt]
  rw [gaussian_coverage, List.map_cons, List.map_nil, List.sum_cons, List.sum_nil, add_zero]
  have h20 : ((⟨20, 20⟩ : FloorPlan).width * (Nat.cast 99 : ℝ) / 99,
      (⟨20, 20⟩ : FloorPlan).height * (Nat.cast 99 : ℝ) / 99) = ((20 : ℝ), (20 : ℝ)) := by
    rw [show (⟨20, 20⟩ : FloorPlan).width = 20 from rfl,
      show (⟨20, 20⟩ : FloorPlan).height = 20 from rfl]
    norm_num
  rw [h20]
  have hd : dist2 ((20 : ℝ), (20 : ℝ)) ((0 : ℝ), (0 : ℝ)) = Real.sqrt 800 := by
    rw [dist2, npNorm]
    norm_num
  rw [hd]
  have hsq : Real.sqrt (800 : ℝ) ^ 2 = 800 := Real.sq_sqrt (by norm_num)
  have harg : -0.5 * (Real.sqrt (800 : ℝ) / 3.0) ^ 2 ≤ -2 := by
    rw [div_pow, hsq]
    norm_num
  calc Real.exp (-0.5 * (Real.sqrt (800 : ℝ) / 3.0) ^ 2)
      ≤ Real.exp (-2) := Real.exp_le_exp.mpr harg
    _ ≤ 0.2 := le_of_lt exp_neg_two_lt

def c8c : Component :=
  { type := "Light Source", id := 0, position := (0, 0),
    props := { power := 1, beam_angle := 120, wavelength := 550, coverage_radius := 3 } }

lemma c8c_type : c8c.type = "Light Source" := rfl

lemma c8_power_sum : ((light_sources [c8c]).map (fun c => c.props.power)).sum = 1 := by
  rw [light_sources_single _ c8c_type]
  simp [c8c]

lemma c8_cpe : calculate_power_efficiency [((0 : ℝ), (0 : ℝ))] [c8c] = 1 := by
  simp only [calculate_power_efficiency, c8_power_sum]
  rw [if_neg one_ne_zero]
  have hbox : ({ width := npMaxL ([((0 : ℝ), (0 : ℝ))].map Prod.fst) + 3,
                 height := npMaxL ([((0 : ℝ), (0 : ℝ))].map Prod.snd) + 3 } : FloorPlan) =
      ⟨3, 3⟩ := by
    simp [npMaxL]
  rw [hbox, c8_bbox_score, div_one]

/-- C8 counterexample: on a 20 x 20 floor with one unit-power source at the
origin, the claimed formula (powerEfficiency from the given floor plan) and
the code (powerEfficiency from the bounding-box plan (max x + 3) x
(max y + 3) = 3 x 3) disagree: the code's efficiency is 1 while the claimed
one is strictly below 1. -/
theorem score_power_efficiency_uses_bbox :
    multi_objective_function ⟨20, 20⟩ [c8c] defaultParams [0, 0] ≠
      spec_score ⟨20, 20⟩ [c8c] defaultParams [0, 0] := by
  have hchunk : chunk2 [(0 : ℝ), 0] = [((0 : ℝ), (0 : ℝ))] := rfl
  simp only [multi_objective_function, spec_score, hchunk, c8_cpe, c8_power_sum,
    defaultParams]
  rw [if_neg one_ne_zero, div_one]
  intro h
  have hlt := c8_fp20_score_lt
  set s := calculate_coverage_score ⟨20, 20⟩ [((0 : ℝ), (0 : ℝ))] with hs
  set ip := calculate_interference_penalty [((0 : ℝ), (0 : ℝ))] with hip
  set wp := calculate_wall_penalty [((0 : ℝ), (0 : ℝ))] ⟨20, 20⟩ 0.5 with hwp
  set sp := calculate_spacing_penalty [((0 : ℝ), (0 : ℝ))] 2.0 with hsp
  linarith

/-- C8 amended: the score is the claimed weighted sum, but the power
efficiency divides the coarse coverage score of the derived plan
(max x + 3) x (max y + 3) — not of the given floor plan — by the total
light-source power, and is 0 whenever that total power is 0 (hence with no
light sources). -/
theorem multi_objective_score_formula (fp : FloorPlan) (comps : List Component)
    (params : OptParams) (positions : List ℝ) :
    multi_objective_function fp comps params positions =
      -params.coverage_weight * calculate_coverage_score fp (chunk2 positions) +
        params.interference_weight * calculate_interference_penalty (chunk2 positions) +
        params.power_weight * (1 - calculate_power_efficiency (chunk2 positions) comps) +
        5.0 * calculate_wall_penalty (chunk2 positions) fp params.wall_margin +
        5.0 * calculate_spacing_penalty (chunk2 positions) params.min_distance ∧
    (((light_sources comps).map (fun c => c.props.power)).sum = 0 →
      calculate_power_efficiency (chunk2 positions) comps = 0) := by
  constructor
  · rfl
  · intro h
    simp only [calculate_power_efficiency]
    rw [if_pos h]

/-- C8 witness: the amended formula at the empty configuration, where the
total light-source power is 0 and the efficiency collapses to 0. -/
theorem multi_objective_score_formula_witness :
    calculate_power_efficiency (chunk2 []) [] = 0 ∧
    multi_objective_function ⟨1, 1⟩ [] defaultParams [] =
      -defaultParams.coverage_weight * calculate_coverage_score ⟨1, 1⟩ (chunk2 []) +
        defaultParams.interference_weight * calculate_interference_penalty (chunk2 []) +
        defaultParams.power_weight * (1 - calculate_power_efficiency (chunk2 []) []) +
        5.0 * calculate_wall_penalty (chunk2 []) ⟨1, 1⟩ defaultParams.wall_margin +
        5.0 * calculate_spacing_penalty (chunk2 []) defaultParams.min_distance :=
  ⟨(multi_objective_score_formula ⟨1, 1⟩ [] defaultParams []).2 (by simp [light_sources]),
   (multi_objective_score_formula ⟨1, 1⟩ [] defaultParams []).1⟩

end VLC

end
